import Mathlib

/-!
# Verification of the Flow credential pool and generation orchestrator

A shallow embedding, in Lean 4, of the `flow` package of the repository
(`src/src/flow/handler.go` and the token-pool source file): the credential
data model, the pool operations (load, add, remove, file-watch reload,
periodic refresh, counting/statistics) and the generation orchestrator
(image/video branches and the bounded polling loop).

Conventions used throughout:

* Go machine integers are modelled as `Nat` (counters, sizes, loop
  indices — all non-negative in the source) or `Int` (timestamps), with
  explicit `% 2 ^ 32` where 32-bit wrap-around matters (MD5).
* Timestamps (`time.Time`) are modelled as `Int` seconds; `time.Now()`
  becomes an explicit `now : Int` argument.
* The transport client (`FlowClient`'s network methods) is an external
  collaborator; it is modelled as a record of pure oracles where a Go
  `(value, error)` pair becomes `Except String value`.
* Fallible steps return `Except`/`Option`; side-effect traces (stream
  chunks, upload calls, submitted jobs) are returned explicitly.
* Go `map`s are modelled as association lists with the no-duplicate-key
  discipline the source maintains (insert only checks-then-adds).
-/

namespace flow

/-! ## MD5 (Go `crypto/md5` + `encoding/hex`, as used by `generateTokenID`)

`generateTokenID` hashes the session token with MD5 and hex-encodes the
digest.  `crypto/md5` is the Go standard library; it is embedded here in
full (RFC 1321) over `Nat` bytes/words with explicit `% 2^32`. -/

/-- `2 ^ 32`, the modulus for 32-bit words. -/
def w32 : Nat := 4294967296

/-- Rotate a 32-bit word (`x < w32`) left by `s` bits. -/
def rotl32 (x s : Nat) : Nat := ((x <<< s) % w32) + (x >>> (32 - s))

/-- The 64 MD5 sine-derived round constants `K[i] = ⌊|sin (i+1)| · 2³²⌋`. -/
def md5K : List Nat :=
  [3614090360, 3905402710, 606105819, 3250441966, 4118548399, 1200080426, 2821735955, 4249261313,
   1770035416, 2336552879, 4294925233, 2304563134, 1804603682, 4254626195, 2792965006, 1236535329,
   4129170786, 3225465664, 643717713, 3921069994, 3593408605, 38016083, 3634488961, 3889429448,
   568446438, 3275163606, 4107603335, 1163531501, 2850285829, 4243563512, 1735328473, 2368359562,
   4294588738, 2272392833, 1839030562, 4259657740, 2763975236, 1272893353, 4139469664, 3200236656,
   681279174, 3936430074, 3572445317, 76029189, 3654602809, 3873151461, 530742520, 3299628645,
   4096336452, 1126891415, 2878612391, 4237533241, 1700485571, 2399980690, 4293915773, 2240044497,
   1873313359, 4264355552, 2734768916, 1309151649, 4149444226, 3174756917, 718787259, 3951481745]

/-- The MD5 per-round left-rotation amounts. -/
def md5S : List Nat :=
  [7, 12, 17, 22, 7, 12, 17, 22, 7, 12, 17, 22, 7, 12, 17, 22,
   5, 9, 14, 20, 5, 9, 14, 20, 5, 9, 14, 20, 5, 9, 14, 20,
   4, 11, 16, 23, 4, 11, 16, 23, 4, 11, 16, 23, 4, 11, 16, 23,
   6, 10, 15, 21, 6, 10, 15, 21, 6, 10, 15, 21, 6, 10, 15, 21]

/-- Nonlinear round function and message-word index for MD5 round `i`,
given the current `b c d` state words. -/
def md5FG (i b c d : Nat) : Nat × Nat :=
  if i < 16 then ((b &&& c) ||| ((b ^^^ 4294967295) &&& d), i)
  else if i < 32 then ((d &&& b) ||| ((d ^^^ 4294967295) &&& c), (5 * i + 1) % 16)
  else if i < 48 then (b ^^^ c ^^^ d, (3 * i + 5) % 16)
  else (c ^^^ (b ||| (d ^^^ 4294967295)), (7 * i) % 16)

/-- Little-endian 32-bit word from (up to) four bytes. -/
def leWord : List Nat → Nat
  | b0 :: b1 :: b2 :: b3 :: _ => b0 + 256 * (b1 + 256 * (b2 + 256 * b3))
  | _ => 0

/-- One MD5 round applied to the running `(a, b, c, d)` state. -/
def md5Round (M : Nat → Nat) (st : Nat × Nat × Nat × Nat) (i : Nat) :
    Nat × Nat × Nat × Nat :=
  let (a, b, c, d) := st
  let (f, g) := md5FG i b c d
  let t := (f + a + (md5K.getD i 0) + M g) % w32
  (d, (b + rotl32 t (md5S.getD i 0)) % w32, b, c)

/-- Process one 64-byte block, updating the four MD5 state words. -/
def md5Block (st : Nat × Nat × Nat × Nat) (block : List Nat) :
    Nat × Nat × Nat × Nat :=
  let M : Nat → Nat := fun g => leWord ((block.drop (4 * g)).take 4)
  let (a, b, c, d) := (List.range 64).foldl (md5Round M) st
  let (a0, b0, c0, d0) := st
  ((a0 + a) % w32, (b0 + b) % w32, (c0 + c) % w32, (d0 + d) % w32)

/-- MD5 padding: a `0x80` byte, zeros to 56 mod 64, then the bit length
as eight little-endian bytes.  (`56 + 64 - r` keeps the subtraction from
truncating at `Nat` for every residue `r` of `(L + 1) % 64`.) -/
def md5Pad (msg : List Nat) : List Nat :=
  let L := msg.length
  let zeros := (56 + 64 - ((L + 1) % 64)) % 64
  let bitLen := (L * 8) % (2 ^ 64)
  msg ++ 128 :: List.replicate zeros 0 ++
    (List.range 8).map (fun i => (bitLen >>> (8 * i)) % 256)

/-- Split a byte list into 64-byte blocks (the padded input's length is a
multiple of 64). -/
def splitBlocks (l : List Nat) : List (List Nat) :=
  if h : l = [] then []
  else l.take 64 :: splitBlocks (l.drop 64)
termination_by l.length
decreasing_by
  simp only [List.length_drop]
  have : 0 < l.length := List.length_pos.mpr h
  omega

/-- Lower-case hex digit. -/
def hexDigit (n : Nat) : Char :=
  if n < 10 then Char.ofNat (48 + n) else Char.ofNat (87 + n)

/-- A byte as two lower-case hex characters. -/
def byteHex (b : Nat) : List Char := [hexDigit (b / 16), hexDigit (b % 16)]

/-- The four little-endian bytes of a 32-bit word. -/
def wordLEBytes (x : Nat) : List Nat :=
  [x % 256, (x / 256) % 256, (x / 65536) % 256, (x / 16777216) % 256]

/-- MD5 digest of a byte sequence, hex-encoded (lower case), exactly as
`hex.EncodeToString(md5.Sum(data)[:])` produces it. -/
def md5Hex (msg : List Nat) : String :=
  let (a, b, c, d) :=
    (splitBlocks (md5Pad msg)).foldl md5Block
      (1732584193, 4023233417, 2562383102, 271733878)
  String.mk (((wordLEBytes a ++ wordLEBytes b ++ wordLEBytes c ++ wordLEBytes d).map byteHex).flatten)

/-- UTF-8 encoding of one character (Go strings are UTF-8; `[]byte(st)`
yields these bytes). -/
def utf8Bytes (c : Char) : List Nat :=
  let n := c.toNat
  if n < 128 then [n]
  else if n < 2048 then [192 + n / 64, 128 + n % 64]
  else if n < 65536 then [224 + n / 4096, 128 + (n / 64) % 64, 128 + n % 64]
  else [240 + n / 262144, 128 + (n / 4096) % 64, 128 + (n / 64) % 64, 128 + n % 64]

/-- The UTF-8 bytes of a string (Go's `[]byte(s)`). -/
def utf8Encode (s : String) : List Nat := (s.data.map utf8Bytes).flatten

/-- Go's `len(s)`: the UTF-8 byte length of a string. -/
def goLen (s : String) : Nat := (utf8Encode s).length

/-! ## String helpers (`strings.TrimSpace`, `strings.Contains`, the
session-token pattern) -/

/-- Go `unicode.IsSpace`: the Unicode `White_Space` class, as used by
`strings.TrimSpace`. -/
def isUnicodeSpace (c : Char) : Bool :=
  let n := c.toNat
  n = 32 || n = 9 || n = 10 || n = 11 || n = 12 || n = 13 ||
  n = 133 || n = 160 || n = 5760 || (8192 ≤ n && n ≤ 8202) ||
  n = 8232 || n = 8233 || n = 8239 || n = 8287 || n = 12288

/-- Go `strings.TrimSpace`: drop leading and trailing Unicode whitespace. -/
def trimSpace (s : String) : String :=
  String.mk (((s.data.dropWhile isUnicodeSpace).reverse.dropWhile isUnicodeSpace).reverse)

/-- RE2's Perl class `\s` = `[\t\n\f\r ]`, used by the session-token
pattern's `[^;\s]`. -/
def isRegexSpace (c : Char) : Bool :=
  c = '\t' || c = '\n' || c.toNat = 12 || c.toNat = 13 || c = ' '

/-- A character that ends the captured token in the pattern
`__Secure-next-auth\.session-token=([^;\s]+)`. -/
def isTokenStop (c : Char) : Bool := c = ';' || isRegexSpace c

/-- The literal part of the session-token pattern. -/
def sessionTokenPat : List Char := "__Secure-next-auth.session-token=".data

/-- Leftmost match of `__Secure-next-auth\.session-token=([^;\s]+)`,
returning the capture group.  The source tries the two patterns
`([^;\s]+)` and `([^\s;]+)` in turn; the character classes are identical,
so a single matcher models both.  RE2 leftmost-first matching with a
greedy `+` means: at the leftmost position where the literal is followed
by at least one non-stop character, capture the maximal run. -/
def findPatMatch : List Char → Option (List Char)
  | [] => none
  | c :: rest =>
    if sessionTokenPat.isPrefixOf (c :: rest) then
      let cap := ((c :: rest).drop sessionTokenPat.length).takeWhile (fun ch => !isTokenStop ch)
      if cap.isEmpty then findPatMatch rest else some cap
    else findPatMatch rest

/-- `extractSessionToken` from the pool source: regex capture first, then
the bare-secret fallback (trimmed, no `=`, byte length strictly greater
than 100). -/
def extractSessionToken (cookie : String) : String :=
  match findPatMatch cookie.data with
  | some cap => trimSpace (String.mk cap)
  | none =>
    let c := trimSpace cookie
    if !(c.data.contains '=') && 100 < goLen c then c else ""

/-- `generateTokenID`: hex-encoded MD5 of the session token's bytes. -/
def generateTokenID (st : String) : String := md5Hex (utf8Encode st)

/-! ## The credential (`FlowToken`) and the transport-client responses -/

/-- Modelled from the spec: the `FlowToken` credential record is declared
in a repository file outside the provided sources; its fields are exactly
those the provided pool and handler code reads and writes (one
authentication identity with derived short-lived access material, health
counters and quota info).  `time.Time` fields are `Int` seconds; the
per-credential mutex guards these fields in the source and has no pure
counterpart. -/
structure FlowToken where
  id : String
  st : String
  at_ : String
  atExpires : Int
  email : String
  projectID : String
  credits : Int
  userPaygateTier : String
  errorCount : Nat
  disabled : Bool
  lastUsed : Int
  deriving DecidableEq, Repr

/-- A fresh credential as built by the pool: `&FlowToken{ID: tokenID, ST: st}`
with all other fields at their Go zero values. -/
def newFlowToken (tokenID st : String) : FlowToken :=
  { id := tokenID, st := st, at_ := "", atExpires := 0, email := "",
    projectID := "", credits := 0, userPaygateTier := "", errorCount := 0,
    disabled := false, lastUsed := 0 }

/-- The response of the transport client's `STToAT` exchange.  The source
parses `resp.Expires` with RFC 3339 only when non-empty and keeps the old
expiry on a parse failure, so the two no-update cases are one `none`. -/
structure STToATResp where
  accessToken : String
  expires : Option Int
  email : String
  deriving DecidableEq, Repr

/-! ## Association-list model of the Go maps -/

/-- `m[k] = v` on an association list: overwrite the existing entry for
`k` or append a fresh one. -/
def assocInsert (m : List (String × α)) (k : String) (v : α) : List (String × α) :=
  match m with
  | [] => [(k, v)]
  | (k', v') :: rest =>
    if k' = k then (k, v) :: rest else (k', v') :: assocInsert rest k v

/-- Go `delete(m, k)`: drop every entry for `k` (the maps hold at most
one). -/
def assocErase (m : List (String × α)) (k : String) : List (String × α) :=
  m.filter (fun kv => kv.1 ≠ k)

/-! ## The token pool -/

/-- The mutable state of `TokenPool`: the identity-keyed credential map
and the `fileName -> tokenID` index (`fileIndex`).  The data directory,
client handle, stop channel and watcher are process wiring with no pure
state; the client's own token list (`client.AddToken`) mirrors the map
and is not modelled separately. -/
structure TokenPool where
  tokens : List (String × FlowToken)
  fileIndex : List (String × String)
  deriving DecidableEq, Repr

/-- The pool as `NewTokenPool` creates it. -/
def emptyPool : TokenPool := { tokens := [], fileIndex := [] }

/-- One directory entry as `LoadFromDir` sees it: name, directory flag and
the file's content (`none` models an `os.ReadFile` error). -/
structure DirEntry where
  name : String
  isDir : Bool
  content : Option String
  deriving DecidableEq, Repr

/-- The per-file body of `LoadFromDir`'s loop: skip directories and
unreadable files, extract the session token, derive the identity and
register a fresh credential only when the identity is absent, counting it
in `loaded`.  Note that this path never touches `fileIndex`. -/
def loadFromDirStep (acc : TokenPool × Nat) (f : DirEntry) : TokenPool × Nat :=
  let (pool, loaded) := acc
  if f.isDir then (pool, loaded)
  else
    match f.content with
    | none => (pool, loaded)
    | some content =>
      let st := extractSessionToken content
      if st = "" then (pool, loaded)
      else
        let tokenID := generateTokenID st
        match pool.tokens.lookup tokenID with
        | some _ => (pool, loaded)
        | none =>
          ({ pool with tokens := assocInsert pool.tokens tokenID (newFlowToken tokenID st) },
           loaded + 1)

/-- `LoadFromDir` over a directory listing: fold the per-file step,
returning the new pool and the number of credentials loaded.  Directory
creation and the read of the listing itself are filesystem wiring. -/
def LoadFromDir (pool : TokenPool) (files : List DirEntry) : TokenPool × Nat :=
  files.foldl loadFromDirStep (pool, 0)

/-- The result of `AddFromCookie`: the derived identity (or `""`), the
error string if any, and the pool after the call. -/
structure AddResult where
  tokenID : String
  err : Option String
  pool : TokenPool
  deriving Repr

/-- `AddFromCookie`: extract the secret, fail with the no-secret error if
none, fail as a duplicate if the identity is present, otherwise register.
Persisting the raw input with `saveTokenToFile` is a filesystem side
effect outside the modelled state (its failure is only logged). -/
def AddFromCookie (pool : TokenPool) (cookie : String) : AddResult :=
  let st := extractSessionToken cookie
  if st = "" then
    { tokenID := "", err := some "cookie 中未找到有效的 session-token", pool := pool }
  else
    let tokenID := generateTokenID st
    match pool.tokens.lookup tokenID with
    | some _ => { tokenID := tokenID, err := some "Token 已存在", pool := pool }
    | none =>
      { tokenID := tokenID, err := none,
        pool := { pool with
                  tokens := assocInsert pool.tokens tokenID (newFlowToken tokenID st) } }

/-- `ReadyCount`'s per-credential test: not disabled and error count
strictly below the threshold 3. -/
def isReady (t : FlowToken) : Bool := !t.disabled && t.errorCount < 3

/-- `ReadyCount`: how many credentials in the pool are usable. -/
def ReadyCount (pool : TokenPool) : Nat :=
  (pool.tokens.filter (fun kv => isReady kv.2)).length

/-- The counters assembled by `Stats` (the per-credential summary list it
also returns carries no extra state). -/
structure StatsCounts where
  total : Nat
  ready : Nat
  disabled : Nat
  errored : Nat
  deriving DecidableEq, Repr

/-- The classification step of `Stats`'s loop: disabled first, then
error count at or above 3, else ready. -/
def statsStep (c : Nat × Nat × Nat) (t : FlowToken) : Nat × Nat × Nat :=
  if t.disabled then (c.1, c.2.1 + 1, c.2.2)
  else if 3 ≤ t.errorCount then (c.1, c.2.1, c.2.2 + 1)
  else (c.1 + 1, c.2.1, c.2.2)

/-- `Stats`: the snapshot counters `total`/`ready`/`disabled`/`errored`. -/
def Stats (pool : TokenPool) : StatsCounts :=
  let (r, d, e) := pool.tokens.foldl (fun c kv => statsStep c kv.2) (0, 0, 0)
  { total := pool.tokens.length, ready := r, disabled := d, errored := e }

/-- `loadTokenFromFile`'s registration tail: insert the credential and
record the `fileName -> tokenID` index entry only when the identity is
absent from the map.  (The immediate background refresh the source then
spawns is a detached task, not a state change here.) -/
def insertIfAbsent (pool : TokenPool) (fileName tokenID st : String) : TokenPool :=
  match pool.tokens.lookup tokenID with
  | some _ => pool
  | none =>
    { pool with
      tokens := assocInsert pool.tokens tokenID (newFlowToken tokenID st),
      fileIndex := assocInsert pool.fileIndex fileName tokenID }

/-- `loadTokenFromFile` (the watch path): read the file (`none` models a
read error), extract the secret, and reconcile with what the filename
previously mapped to — same identity: nothing to do; different identity:
drop the old credential, then register if absent. -/
def loadTokenFromFile (pool : TokenPool) (fileName : String) (content : Option String) :
    TokenPool :=
  match content with
  | none => pool
  | some content =>
    let st := extractSessionToken content
    if st = "" then pool
    else
      let tokenID := generateTokenID st
      match pool.fileIndex.lookup fileName with
      | some existingID =>
        if existingID = tokenID then pool
        else
          insertIfAbsent { pool with tokens := assocErase pool.tokens existingID }
            fileName tokenID st
      | none => insertIfAbsent pool fileName tokenID st

/-- `removeTokenByFile`: resolve the filename through `fileIndex`; when
absent, do nothing; otherwise delete the credential and the index
entry. -/
def removeTokenByFile (pool : TokenPool) (fileName : String) : TokenPool :=
  match pool.fileIndex.lookup fileName with
  | none => pool
  | some tokenID =>
    { pool with
      tokens := assocErase pool.tokens tokenID,
      fileIndex := assocErase pool.fileIndex fileName }

/-- The four `fsnotify` operations `handleFileEvent` distinguishes.  An
fsnotify event carries a bit set; the source's `switch` tests the bits in
this order, so one constructor per handled case is faithful. -/
inductive FileOp
  | create
  | write
  | remove
  | rename
  deriving DecidableEq, Repr

/-- `handleFileEvent`: ignore dot files and `README.md` (case-insensitive;
modelled by an ASCII fold, which is what `strings.EqualFold` amounts to on
this literal), reload on create/write (the 100 ms debounce sleep precedes
the read and is not a state change), remove on remove/rename. -/
def handleFileEvent (pool : TokenPool) (fileName : String) (op : FileOp)
    (content : Option String) : TokenPool :=
  if fileName.startsWith "." || fileName.toLower = "readme.md" then pool
  else
    match op with
    | .create => loadTokenFromFile pool fileName content
    | .write => loadTokenFromFile pool fileName content
    | .remove => removeTokenByFile pool fileName
    | .rename => removeTokenByFile pool fileName

/-! ## The periodic refresh worker (`refreshAllAT`) -/

/-- The refresh-freshness test in `refreshAllAT`: access material absent
or past the 5-minute margin before expiry
(`token.AT == "" || time.Now().After(token.ATExpires.Add(-5*time.Minute))`). -/
def needRefresh (now : Int) (t : FlowToken) : Bool :=
  t.at_ = "" || t.atExpires - 300 < now

/-- The per-credential body of `refreshAllAT`'s loop, with the transport
client's `STToAT` as an oracle (`none` for `p.client == nil`): skip fresh
credentials, count a failure and disable at the threshold, or install the
new access material and clear the health state. -/
def refreshOneAT (now : Int) (client : Option (String → Except String STToATResp))
    (t : FlowToken) : FlowToken :=
  if !needRefresh now t then t
  else
    match client with
    | none => t
    | some stToAT =>
      match stToAT t.st with
      | .error _ =>
        let ec := t.errorCount + 1
        { t with errorCount := ec, disabled := if 3 ≤ ec then true else t.disabled }
      | .ok r =>
        { t with at_ := r.accessToken, atExpires := r.expires.getD t.atExpires,
                 email := r.email, errorCount := 0, disabled := false }

/-- `refreshAllAT`: one sweep of the refresh worker over a snapshot of the
pool's credentials. -/
def refreshAllAT (now : Int) (client : Option (String → Except String STToATResp))
    (ts : List FlowToken) : List FlowToken :=
  ts.map (refreshOneAT now client)

/-! ## The generation orchestrator (`handler.go`)

Stream chunks are modelled as `(content, isFinish)` pairs — the payload
`createStreamChunk` wraps in its JSON envelope; a chunk appears in the
trace exactly when the source would invoke `streamCb` (`hasStream` models
`streamCb != nil`).  Image bytes are `List Nat`. -/

/-- The two generation kinds (`ModelTypeImage` / video). -/
inductive ModelType
  | image
  | video
  deriving DecidableEq, Repr

/-- The three video submission kinds (`VideoTypeT2V` / `VideoTypeI2V` /
`VideoTypeR2V`); the submit `switch`'s `default` arm is the text kind. -/
inductive VideoType
  | t2v
  | i2v
  | r2v
  deriving DecidableEq, Repr

/-- Modelled from the spec: one entry of the static model-configuration
table (`ModelConfig`, declared in a repository file outside the provided
sources); its fields are exactly those the handler reads.  `aspect` is the
source's `AspectRatio` field. -/
structure ModelConfig where
  type : ModelType
  videoType : VideoType
  minImages : Nat
  maxImages : Nat
  aspect : String
  modelName : String
  modelKey : String
  deriving DecidableEq, Repr

/-- `GenerationRequest`. -/
structure GenerationRequest where
  model : String
  prompt : String
  images : List (List Nat)
  stream : Bool
  deriving DecidableEq, Repr

/-- `GenerationResult`; absent JSON fields default to Go zero values. -/
structure GenerationResult where
  success : Bool
  type : String := ""
  url : String := ""
  error : String := ""
  progress : Int := 0
  message : String := ""
  deriving DecidableEq, Repr

/-- The `GenerateImage` response field the handler uses. -/
structure ImageGenResult where
  imageURL : String
  deriving DecidableEq, Repr

/-- The video submission response (`GenerateVideoResponse`). -/
structure GenerateVideoResponse where
  taskID : String
  sceneID : String
  deriving DecidableEq, Repr

/-- One `CheckVideoStatus` response. -/
structure CheckResp where
  status : String
  videoURL : String
  deriving DecidableEq, Repr

/-- Modelled from the spec: the polling bounds of the client
configuration (`h.client.config.MaxPollAttempts` / `PollInterval`,
declared outside the provided sources; the interval is in seconds). -/
structure FlowConfig where
  maxPollAttempts : Nat
  pollInterval : Nat
  deriving DecidableEq, Repr

/-- The transport client's operations as pure oracles (`FlowClient` is an
external collaborator).  `checkVideoStatus` is indexed by the polling
attempt (the source passes the same `operations` payload each time and
only the attempt varies); `none` models a transport error there, matching
the `err != nil → continue` treatment. -/
structure FlowClientOps where
  stToAT : String → Except String STToATResp
  createProject : String → String → Except String String
  uploadImage : String → List Nat → String → Except String String
  generateImage : String → String → String → String → String → List String →
    Except String ImageGenResult
  generateVideoStartEnd : String → String → String → String → String → String → String →
    String → Except String GenerateVideoResponse
  generateVideoReferenceImages : String → String → String → String → String →
    List String → String → Except String GenerateVideoResponse
  generateVideoText : String → String → String → String → String → String →
    Except String GenerateVideoResponse
  checkVideoStatus : Nat → Option CheckResp

/-- `min` from `handler.go` (Go ints are non-negative here). -/
def min (a b : Nat) : Nat := if a < b then a else b

/-- The fixed set of terminal error statuses of the polling `switch`. -/
def isTerminalErrorStatus (s : String) : Bool :=
  s = "MEDIA_GENERATION_STATUS_ERROR_UNKNOWN" ||
  s = "MEDIA_GENERATION_STATUS_ERROR_NSFW" ||
  s = "MEDIA_GENERATION_STATUS_ERROR_PERSON" ||
  s = "MEDIA_GENERATION_STATUS_ERROR_SAFETY"

/-- A status response on which the polling loop stops: terminal success
with a non-empty URL, or a terminal error status. -/
def isTerminalResp (r : CheckResp) : Bool :=
  (r.status = "MEDIA_GENERATION_STATUS_SUCCESSFUL" && r.videoURL ≠ "") ||
  isTerminalErrorStatus r.status

/-- One iteration of the polling loop, in execution order: the
inter-attempt sleep, then the status query (`queryOk` is `err == nil`),
then the optional progress chunk value. -/
structure AttemptRecord where
  attempt : Nat
  sleptSeconds : Nat
  queryOk : Bool
  progressChunk : Option Nat
  deriving DecidableEq, Repr

/-- The body of `pollVideoResult`'s `for` loop, with `fuel` the remaining
attempts.  Each iteration sleeps `pollInterval` seconds, queries the
status (a failed query just continues), emits the coarse progress value
on every attempt with `i % 7 == 0` when streaming, and stops on a
terminal response; exhausting the attempts is the timeout failure. -/
def pollLoopAux (status : Nat → Option CheckResp) (maxAttempts pollInterval : Nat)
    (hasStream : Bool) : Nat → Nat → Except String String × List AttemptRecord
  | _, 0 => (.error ("视频生成超时 (已轮询 " ++ toString maxAttempts ++ " 次)"), [])
  | i, fuel + 1 =>
    match status i with
    | none =>
      let (res, log) := pollLoopAux status maxAttempts pollInterval hasStream (i + 1) fuel
      (res, { attempt := i, sleptSeconds := pollInterval, queryOk := false,
              progressChunk := none } :: log)
    | some resp =>
      let chunk := if hasStream ∧ i % 7 = 0
        then some (flow.min (i * 100 / maxAttempts) 95) else none
      let rcd : AttemptRecord :=
        { attempt := i, sleptSeconds := pollInterval, queryOk := true,
          progressChunk := chunk }
      if resp.status = "MEDIA_GENERATION_STATUS_SUCCESSFUL" ∧ resp.videoURL ≠ "" then
        (.ok resp.videoURL, [rcd])
      else if isTerminalErrorStatus resp.status then
        (.error ("视频生成失败: " ++ resp.status), [rcd])
      else
        let (res, log) := pollLoopAux status maxAttempts pollInterval hasStream (i + 1) fuel
        (res, rcd :: log)

/-- `pollVideoResult`: the bounded polling loop, returning the outcome and
the per-attempt trace. -/
def pollVideoResult (ops : FlowClientOps) (cfg : FlowConfig) (hasStream : Bool) :
    Except String String × List AttemptRecord :=
  pollLoopAux ops.checkVideoStatus cfg.maxPollAttempts cfg.pollInterval hasStream
    0 cfg.maxPollAttempts

/-- The stream chunks the polling loop emits, rendered from the trace. -/
def progressChunksOf (log : List AttemptRecord) : List (String × Bool) :=
  log.filterMap (fun r =>
    r.progressChunk.map (fun v => ("生成进度: " ++ toString v ++ "%\n", false)))

/-- The three mutually exclusive video submission shapes, recording the
media identifiers the handler passed. -/
inductive SubmitCall
  | startEnd (startMediaID endMediaID : String)
  | referenceImages (mediaIDs : List String)
  | text
  deriving DecidableEq, Repr

/-- What one branch handler produces: the result, the credential's final
state, and the traces of stream chunks, upload calls (each entry one
`UploadImage` invocation, in order) and the submitted video job. -/
structure HandlerOutput where
  result : GenerationResult
  token : FlowToken
  chunks : List (String × Bool)
  uploads : List (List Nat)
  submitCall : Option SubmitCall
  deriving Repr

/-- The reference-image upload loop of `handleImageGeneration`: stop at
the first failing upload, otherwise collect the media identifiers and the
per-image progress chunks. -/
def uploadRefImagesLoop (ops : FlowClientOps) (at_ aspect : String) (total : Nat)
    (hasStream : Bool) : Nat → List (List Nat) →
    List (String × Bool) × List (List Nat) × Except String (List String)
  | _, [] => ([], [], .ok [])
  | i, img :: rest =>
    match ops.uploadImage at_ img aspect with
    | .error e => ([], [img], .error e)
    | .ok mediaID =>
      let c := if hasStream then
          [("已上传第 " ++ toString (i + 1) ++ "/" ++ toString total ++ " 张图片\n", false)]
        else []
      let (cs, us, r) := uploadRefImagesLoop ops at_ aspect total hasStream (i + 1) rest
      (c ++ cs, img :: us,
        match r with
        | .error e => .error e
        | .ok ids => .ok (mediaID :: ids))

/-- `handleImageGeneration`: upload the reference images (a failure aborts
with an upload-failure result and no health change), call `GenerateImage`
(a transport failure increments the error counter), treat an empty URL as
the empty-result failure, and on success stamp `lastUsed`/reset the error
counter and emit the final image chunk. -/
def handleImageGeneration (ops : FlowClientOps) (now : Int) (token : FlowToken)
    (modelConfig : ModelConfig) (req : GenerationRequest) (hasStream : Bool) :
    HandlerOutput :=
  let c0 := if hasStream then [("✨ 图片生成任务已启动\n", false)] else []
  let c1 := if 0 < req.images.length ∧ hasStream then
      [("上传 " ++ toString req.images.length ++ " 张参考图片...\n", false)]
    else []
  let (ucs, ups, upRes) :=
    uploadRefImagesLoop ops token.at_ modelConfig.aspect req.images.length hasStream
      0 req.images
  match upRes with
  | .error e =>
    { result := { success := false, error := "上传图片失败: " ++ e },
      token := token, chunks := c0 ++ c1 ++ ucs, uploads := ups, submitCall := none }
  | .ok mediaIDs =>
    let c2 := if hasStream then [("正在生成图片...\n", false)] else []
    match ops.generateImage token.at_ token.projectID req.prompt modelConfig.modelName
        modelConfig.aspect mediaIDs with
    | .error e =>
      { result := { success := false, error := "生成图片失败: " ++ e },
        token := { token with errorCount := token.errorCount + 1 },
        chunks := c0 ++ c1 ++ ucs ++ c2, uploads := ups, submitCall := none }
    | .ok res =>
      if res.imageURL = "" then
        { result := { success := false, error := "生成结果为空" },
          token := token, chunks := c0 ++ c1 ++ ucs ++ c2, uploads := ups,
          submitCall := none }
      else
        { result := { success := true, type := "image", url := res.imageURL },
          token := { token with lastUsed := now, errorCount := 0 },
          chunks := c0 ++ c1 ++ ucs ++ c2 ++
            (if hasStream then [("![Generated Image](" ++ res.imageURL ++ ")", true)] else []),
          uploads := ups, submitCall := none }

/-- The reference-image upload loop of the video branch (no per-image
chunk there): stop at the first failure. -/
def uploadVideoRefsLoop (ops : FlowClientOps) (at_ aspect : String) :
    List (List Nat) → List (List Nat) × Except String (List String)
  | [] => ([], .ok [])
  | img :: rest =>
    match ops.uploadImage at_ img aspect with
    | .error e => ([img], .error e)
    | .ok mediaID =>
      let (us, r) := uploadVideoRefsLoop ops at_ aspect rest
      (img :: us,
        match r with
        | .error e => .error e
        | .ok ids => .ok (mediaID :: ids))

/-- The upload stage of `handleVideoGeneration`: for the start/end kind
upload the first frame and, exactly when two images were given, the
second; for the reference kind upload every image; otherwise nothing.
Returns the chunks, the attempted upload calls and either the fully
formatted failure message or `(startMediaID, endMediaID, referenceIDs)`. -/
def videoUploadStage (ops : FlowClientOps) (at_ aspect : String)
    (videoType : VideoType) (images : List (List Nat)) (hasStream : Bool) :
    List (String × Bool) × List (List Nat) × Except String (String × String × List String) :=
  match videoType, images with
  | .i2v, img0 :: rest =>
    let c1 := if hasStream then [("上传首帧图片...\n", false)] else []
    (match ops.uploadImage at_ img0 aspect with
     | .error e => (c1, [img0], .error ("上传首帧失败: " ++ e))
     | .ok startID =>
       match rest with
       | [img1] =>
         let c2 := if hasStream then [("上传尾帧图片...\n", false)] else []
         (match ops.uploadImage at_ img1 aspect with
          | .error e => (c1 ++ c2, [img0, img1], .error ("上传尾帧失败: " ++ e))
          | .ok endID => (c1 ++ c2, [img0, img1], .ok (startID, endID, [])))
       | _ => (c1, [img0], .ok (startID, "", [])))
  | .r2v, img0 :: rest =>
    let c1 := if hasStream then
        [("上传 " ++ toString (img0 :: rest).length ++ " 张参考图片...\n", false)]
      else []
    let (us, r) := uploadVideoRefsLoop ops at_ aspect (img0 :: rest)
    (match r with
     | .error e => (c1, us, .error ("上传图片失败: " ++ e))
     | .ok ids => (c1, us, .ok ("", "", ids)))
  | _, _ => ([], [], .ok ("", "", []))

/-- The part of `handleVideoGeneration` after the submit call returns
(uniform over the three submission shapes): a transport failure
increments the error counter, an empty task identifier fails without a
health change, then the polling loop runs — its failure leaves the
credential untouched, and success stamps `lastUsed`, resets the error
counter and emits the final embeddable video chunk. -/
def videoAfterSubmit (ops : FlowClientOps) (cfg : FlowConfig) (now : Int)
    (token : FlowToken) (cs : List (String × Bool)) (ups : List (List Nat))
    (hasStream : Bool) (call : SubmitCall)
    (submitRes : Except String GenerateVideoResponse) : HandlerOutput :=
  match submitRes with
  | .error e =>
    { result := { success := false, error := "提交任务失败: " ++ e },
      token := { token with errorCount := token.errorCount + 1 },
      chunks := cs, uploads := ups, submitCall := some call }
  | .ok videoResp =>
    if videoResp.taskID = "" then
      { result := { success := false, error := "任务创建失败" }, token := token,
        chunks := cs, uploads := ups, submitCall := some call }
    else
      let c4 := if hasStream then [("视频生成中...\n", false)] else []
      let (pollRes, log) := pollVideoResult ops cfg hasStream
      let pcs := progressChunksOf log
      match pollRes with
      | .error e =>
        { result := { success := false, error := e }, token := token,
          chunks := cs ++ c4 ++ pcs, uploads := ups, submitCall := some call }
      | .ok videoURL =>
        { result := { success := true, type := "video", url := videoURL },
          token := { token with lastUsed := now, errorCount := 0 },
          chunks := cs ++ c4 ++ pcs ++
            (if hasStream then
              [("<video src=\x27" ++ videoURL ++ "\x27 controls style=\x27max-width:100%\x27></video>", true)]
             else []),
          uploads := ups, submitCall := some call }

/-- The submit `switch` of `handleVideoGeneration`: the shape and the
transport call, chosen by the model's video kind (`default` is the text
shape). -/
def videoSubmitCall (ops : FlowClientOps) (token : FlowToken)
    (modelConfig : ModelConfig) (prompt startID endID : String)
    (refIDs : List String) (userTier : String) :
    SubmitCall × Except String GenerateVideoResponse :=
  match modelConfig.videoType with
  | .i2v => (SubmitCall.startEnd startID endID,
      ops.generateVideoStartEnd token.at_ token.projectID prompt
        modelConfig.modelKey modelConfig.aspect startID endID userTier)
  | .r2v => (SubmitCall.referenceImages refIDs,
      ops.generateVideoReferenceImages token.at_ token.projectID prompt
        modelConfig.modelKey modelConfig.aspect refIDs userTier)
  | .t2v => (SubmitCall.text,
      ops.generateVideoText token.at_ token.projectID prompt
        modelConfig.modelKey modelConfig.aspect userTier)

/-- The tail of `handleVideoGeneration` after validation: upload stage,
job submission (one of the three mutually exclusive shapes), then the
uniform post-submit tail. -/
def videoSubmitAndPoll (ops : FlowClientOps) (cfg : FlowConfig) (now : Int)
    (token : FlowToken) (modelConfig : ModelConfig) (prompt : String)
    (images : List (List Nat)) (cs : List (String × Bool)) (hasStream : Bool) :
    HandlerOutput :=
  let (ucs, ups, upRes) :=
    videoUploadStage ops token.at_ modelConfig.aspect modelConfig.videoType images hasStream
  match upRes with
  | .error msg =>
    { result := { success := false, error := msg }, token := token,
      chunks := cs ++ ucs, uploads := ups, submitCall := none }
  | .ok (startID, endID, refIDs) =>
    let c3 := if hasStream then [("提交视频生成任务...\n", false)] else []
    let userTier := if token.userPaygateTier = "" then "PAYGATE_TIER_ONE"
      else token.userPaygateTier
    let (call, submitRes) :=
      videoSubmitCall ops token modelConfig prompt startID endID refIDs userTier
    videoAfterSubmit ops cfg now token (cs ++ ucs ++ c3) ups hasStream call submitRes

/-- `handleVideoGeneration`: the startup chunk, then the image-count
validation — the text kind drops any images with a warning chunk; the
start/end kind fails when the count is outside `[minImages, maxImages]` —
then the upload/submit/poll tail. -/
def handleVideoGeneration (ops : FlowClientOps) (cfg : FlowConfig) (now : Int)
    (token : FlowToken) (modelConfig : ModelConfig) (req : GenerationRequest)
    (hasStream : Bool) : HandlerOutput :=
  let c0 := if hasStream then [("✨ 视频生成任务已启动\n", false)] else []
  let imageCount := req.images.length
  if modelConfig.videoType = .t2v then
    if 0 < imageCount then
      let warn := if hasStream then
          [("⚠️ 文生视频模型不支持图片，将忽略图片仅使用文本提示词\n", false)]
        else []
      videoSubmitAndPoll ops cfg now token modelConfig req.prompt [] (c0 ++ warn) hasStream
    else
      videoSubmitAndPoll ops cfg now token modelConfig req.prompt req.images c0 hasStream
  else if modelConfig.videoType = .i2v ∧
      (imageCount < modelConfig.minImages ∨ modelConfig.maxImages < imageCount) then
    let msg := "首尾帧模型需要 " ++ toString modelConfig.minImages ++ "-" ++
      toString modelConfig.maxImages ++ " 张图片，当前提供了 " ++
      toString imageCount ++ " 张"
    { result := { success := false, error := msg },
      token := token, chunks := c0, uploads := [], submitCall := none }
  else
    videoSubmitAndPoll ops cfg now token modelConfig req.prompt req.images c0 hasStream

/-- `ensureATValid`: keep a token whose access material is present and
more than five minutes from expiry; otherwise exchange the durable secret.
A failed exchange changes nothing on the credential. -/
def ensureATValid (ops : FlowClientOps) (now : Int) (token : FlowToken) :
    Except String FlowToken :=
  if token.at_ ≠ "" ∧ now < token.atExpires - 300 then .ok token
  else
    match ops.stToAT token.st with
    | .error e => .error e
    | .ok r =>
      .ok { token with
            at_ := r.accessToken, atExpires := r.expires.getD token.atExpires,
            email := r.email }

/-- `ensureProjectExists`: create and cache the workspace on first use. -/
def ensureProjectExists (ops : FlowClientOps) (token : FlowToken) :
    Except String FlowToken :=
  if token.projectID ≠ "" then .ok token
  else
    match ops.createProject token.st "Flow2API" with
    | .error e => .error e
    | .ok pid => .ok { token with projectID := pid }

/-- What `HandleGeneration` produces: the result, the credential's final
state (`none` before one is selected), the branch traces, and flags for
the fire-and-forget quota refresh (`go h.updateTokenCredits`, whose
asynchronous effect is not part of this sequential state) and for the
workspace-ensure step having been reached. -/
structure TopOutput where
  result : GenerationResult
  token : Option FlowToken
  chunks : List (String × Bool)
  uploads : List (List Nat)
  submitCall : Option SubmitCall
  creditsLaunched : Bool
  projectAttempted : Bool
  deriving Repr

/-- `HandleGeneration`: model lookup (the static table
`GetFlowModelConfig`, declared outside the provided sources, is an oracle
argument), credential selection (`SelectToken`'s pick is the `selected`
argument), access-material freshness, the detached quota refresh, the
workspace ensure, and the branch dispatch on the model's kind. -/
def HandleGeneration (ops : FlowClientOps) (cfg : FlowConfig)
    (getFlowModelConfig : String → Option ModelConfig) (selected : Option FlowToken)
    (now : Int) (req : GenerationRequest) (hasStream : Bool) : TopOutput :=
  match getFlowModelConfig req.model with
  | none =>
    { result := { success := false, error := "不支持的模型: " ++ req.model },
      token := none, chunks := [], uploads := [], submitCall := none,
      creditsLaunched := false, projectAttempted := false }
  | some modelConfig =>
    match selected with
    | none =>
      { result := { success := false, error := "没有可用的 Flow Token" },
        token := none, chunks := [], uploads := [], submitCall := none,
        creditsLaunched := false, projectAttempted := false }
    | some token =>
      match ensureATValid ops now token with
      | .error e =>
        { result := { success := false, error := "Token 认证失败: " ++ e },
          token := some token, chunks := [], uploads := [], submitCall := none,
          creditsLaunched := false, projectAttempted := false }
      | .ok token1 =>
        match ensureProjectExists ops token1 with
        | .error e =>
          { result := { success := false, error := "创建项目失败: " ++ e },
            token := some token1, chunks := [], uploads := [], submitCall := none,
            creditsLaunched := true, projectAttempted := true }
        | .ok token2 =>
          let o :=
            match modelConfig.type with
            | .image => handleImageGeneration ops now token2 modelConfig req hasStream
            | .video => handleVideoGeneration ops cfg now token2 modelConfig req hasStream
          { result := o.result, token := some o.token, chunks := o.chunks,
            uploads := o.uploads, submitCall := o.submitCall,
            creditsLaunched := true, projectAttempted := true }

/-! ## Association-list lemmas -/

theorem lookup_assocInsert_self (m : List (String × α)) (k : String) (v : α) :
    (assocInsert m k v).lookup k = some v := by
  induction m with
  | nil => simp [assocInsert, List.lookup]
  | cons kv rest ih =>
    obtain ⟨k', v'⟩ := kv
    by_cases h : k' = k
    · simp [assocInsert, h, List.lookup]
    · simp [assocInsert, h, List.lookup, ih, Ne.symm h, beq_eq_false_iff_ne.mpr (Ne.symm h)]

theorem lookup_assocInsert_ne (m : List (String × α)) (k k' : String) (v : α)
    (h : k' ≠ k) : (assocInsert m k v).lookup k' = m.lookup k' := by
  induction m with
  | nil => simp [assocInsert, List.lookup, beq_eq_false_iff_ne.mpr h]
  | cons kv rest ih =>
    obtain ⟨a, b⟩ := kv
    by_cases ha : a = k
    · subst ha
      simp [assocInsert, List.lookup, beq_eq_false_iff_ne.mpr h]
    · simp [assocInsert, ha, List.lookup, ih]

theorem lookup_assocErase_self (m : List (String × α)) (k : String) :
    (assocErase m k).lookup k = none := by
  induction m with
  | nil => simp [assocErase]
  | cons kv rest ih =>
    obtain ⟨a, b⟩ := kv
    simp only [assocErase, List.filter_cons, ne_eq, decide_not] at ih ⊢
    by_cases ha : a = k
    · subst ha
      simpa using ih
    · simp [ha, List.lookup, beq_eq_false_iff_ne.mpr (Ne.symm ha), ih]

theorem lookup_assocErase_ne (m : List (String × α)) (k k' : String)
    (h : k' ≠ k) : (assocErase m k).lookup k' = m.lookup k' := by
  induction m with
  | nil => simp [assocErase]
  | cons kv rest ih =>
    obtain ⟨a, b⟩ := kv
    simp only [assocErase, List.filter_cons, ne_eq, decide_not] at ih ⊢
    by_cases ha : a = k
    · subst ha
      simp [List.lookup, beq_eq_false_iff_ne.mpr h, ih]
    · by_cases hk' : k' = a
      · subst hk'
        simp [ha, List.lookup]
      · simp [ha, List.lookup, beq_eq_false_iff_ne.mpr hk', ih]

theorem assocInsert_of_lookup_none (m : List (String × α)) (k : String) (v : α)
    (h : m.lookup k = none) : assocInsert m k v = m ++ [(k, v)] := by
  induction m with
  | nil => simp [assocInsert]
  | cons kv rest ih =>
    obtain ⟨a, b⟩ := kv
    simp only [List.lookup] at h
    by_cases ha : k = a
    · simp [beq_iff_eq.mpr ha] at h
    · simp only [beq_eq_false_iff_ne.mpr ha] at h
      simp [assocInsert, Ne.symm ha, ih h]

theorem not_mem_keys_of_lookup_none (m : List (String × α)) (k : String)
    (h : m.lookup k = none) : k ∉ m.map Prod.fst := by
  induction m with
  | nil => simp
  | cons kv rest ih =>
    obtain ⟨a, b⟩ := kv
    simp only [List.lookup] at h
    by_cases ha : k = a
    · simp [beq_iff_eq.mpr ha] at h
    · simp only [beq_eq_false_iff_ne.mpr ha] at h
      simp [ha, ih h]

/-! ## C10: `ReadyCount` agrees with `Stats`, and the counts partition -/

theorem statsFold_eq (l : List (String × FlowToken)) : ∀ c : Nat × Nat × Nat,
    l.foldl (fun c kv => statsStep c kv.2) c =
      (c.1 + (l.filter (fun kv => isReady kv.2)).length,
       c.2.1 + (l.filter (fun kv => kv.2.disabled)).length,
       c.2.2 + (l.filter (fun kv => !kv.2.disabled && 3 ≤ kv.2.errorCount)).length) := by
  induction l with
  | nil => simp
  | cons kv rest ih =>
    intro c
    rw [List.foldl_cons, ih]
    by_cases hd : kv.2.disabled
    · simp [statsStep, isReady, hd, List.filter_cons]
      omega
    · by_cases he : 3 ≤ kv.2.errorCount
      · simp [statsStep, isReady, hd, he, Nat.not_lt.mpr he, List.filter_cons]
        omega
      · simp [statsStep, isReady, hd, he, Nat.lt_of_not_le he, List.filter_cons]
        omega

theorem Stats_eq (pool : TokenPool) :
    Stats pool =
      { total := pool.tokens.length,
        ready := (pool.tokens.filter (fun kv => isReady kv.2)).length,
        disabled := (pool.tokens.filter (fun kv => kv.2.disabled)).length,
        errored := (pool.tokens.filter
          (fun kv => !kv.2.disabled && 3 ≤ kv.2.errorCount)).length } := by
  unfold Stats
  rw [statsFold_eq]
  simp

theorem length_eq_health_filters (l : List (String × FlowToken)) :
    l.length = (l.filter (fun kv => isReady kv.2)).length
      + (l.filter (fun kv => kv.2.disabled)).length
      + (l.filter (fun kv => !kv.2.disabled && 3 ≤ kv.2.errorCount)).length := by
  induction l with
  | nil => simp
  | cons kv rest ih =>
    by_cases hd : kv.2.disabled
    · have hr : isReady kv.2 = false := by simp [isReady, hd]
      simp [hd, hr, List.filter_cons, ih]
      omega
    · by_cases he : 3 ≤ kv.2.errorCount
      · have hr : isReady kv.2 = false := by simp [isReady, hd, Nat.not_lt.mpr he]
        simp [hd, he, hr, List.filter_cons, ih]
        omega
      · have hr : isReady kv.2 = true := by simp [isReady, hd, Nat.lt_of_not_le he]
        simp [hd, he, hr, List.filter_cons, ih]
        omega

/-- **C10.** For every pool state, `ReadyCount()` returns exactly the
`ready` count computed inside `Stats()` (both count precisely the
credentials with `disabled = false` and error count strictly below 3),
and the `Stats()` counters partition the pool:
`total = ready + disabled + errored`, every credential counted in exactly
one class. -/
theorem Stats_ready_eq_ReadyCount_and_partition (pool : TokenPool) :
    (Stats pool).ready = ReadyCount pool ∧
    (Stats pool).total = (Stats pool).ready + (Stats pool).disabled + (Stats pool).errored := by
  rw [Stats_eq]
  exact ⟨rfl, length_eq_health_filters pool.tokens⟩

/-! ## C2: refresh failures, the disable threshold, and recovery -/

/-- **C2.** In the periodic refresh worker (`refreshAllAT`'s per-credential
step), each refresh failure increments the credential's consecutive-error
count and sets the disabled flag once the count reaches 3; a subsequent
successful refresh resets the count to 0 and clears the flag.
Consequently a credential that starts ready (no errors, access material
absent so a refresh is due) is still ready after two consecutive failures,
stops being counted by `ReadyCount` after exactly three, and is counted
again after one subsequent successful refresh. -/
theorem refresh_failure_threshold_and_recovery
    (t : FlowToken) (f g : String → Except String STToATResp)
    (ferr : String) (r : STToATResp) (now1 now2 now3 now4 : Int)
    (hf : f t.st = .error ferr) (hg : g t.st = .ok r)
    (hat : t.at_ = "") (he : t.errorCount = 0) (hd : t.disabled = false) :
    (∀ (u : FlowToken) (n : Int) (e' : String),
      needRefresh n u = true → f u.st = .error e' →
        (refreshOneAT n (some f) u).errorCount = u.errorCount + 1 ∧
        (refreshOneAT n (some f) u).disabled =
          (if 3 ≤ u.errorCount + 1 then true else u.disabled)) ∧
    (∀ (u : FlowToken) (n : Int) (r' : STToATResp),
      needRefresh n u = true → g u.st = .ok r' →
        (refreshOneAT n (some g) u).errorCount = 0 ∧
        (refreshOneAT n (some g) u).disabled = false) ∧
    (let t1 := refreshOneAT now1 (some f) t
     let t2 := refreshOneAT now2 (some f) t1
     let t3 := refreshOneAT now3 (some f) t2
     let t4 := refreshOneAT now4 (some g) t3
     isReady t2 = true ∧ t3.errorCount = 3 ∧ t3.disabled = true ∧
     isReady t3 = false ∧ isReady t4 = true ∧
     ∀ (ts : List (String × FlowToken)) (k : String),
       ReadyCount ⟨ts ++ [(k, t3)], []⟩ = ReadyCount ⟨ts, []⟩ ∧
       ReadyCount ⟨ts ++ [(k, t4)], []⟩ = ReadyCount ⟨ts, []⟩ + 1) := by
  refine ⟨?_, ?_, ?_⟩
  · intro u n e' hn hfe
    simp [refreshOneAT, hn, hfe]
  · intro u n r' hn hge
    simp [refreshOneAT, hn, hge]
  · have h1 : refreshOneAT now1 (some f) t =
        { t with errorCount := 1, disabled := false } := by
      simp [refreshOneAT, needRefresh, hat, hf, he, hd]
    have h2 : refreshOneAT now2 (some f) { t with errorCount := 1, disabled := false } =
        { t with errorCount := 2, disabled := false } := by
      simp [refreshOneAT, needRefresh, hat, hf]
    have h3 : refreshOneAT now3 (some f) { t with errorCount := 2, disabled := false } =
        { t with errorCount := 3, disabled := true } := by
      simp [refreshOneAT, needRefresh, hat, hf]
    have h4 : refreshOneAT now4 (some g) { t with errorCount := 3, disabled := true } =
        { t with at_ := r.accessToken, atExpires := r.expires.getD t.atExpires,
                 email := r.email, errorCount := 0, disabled := false } := by
      simp [refreshOneAT, needRefresh, hat, hg]
    simp [h1, h2, h3, h4, isReady, ReadyCount, List.filter_append]

/-- Witness for C2: a concrete ready credential with an always-failing
exchange is disabled exactly at the third consecutive failure and ready
again after one successful exchange. -/
theorem refresh_failure_threshold_and_recovery_witness :
    (refreshOneAT 3 (some fun _ => Except.error "boom")
      (refreshOneAT 2 (some fun _ => Except.error "boom")
        (refreshOneAT 1 (some fun _ => Except.error "boom")
          (newFlowToken "c2w" "s")))).errorCount = 3 ∧
    isReady (refreshOneAT 3 (some fun _ => Except.error "boom")
      (refreshOneAT 2 (some fun _ => Except.error "boom")
        (refreshOneAT 1 (some fun _ => Except.error "boom")
          (newFlowToken "c2w" "s")))) = false ∧
    isReady (refreshOneAT 4 (some fun _ => Except.ok ⟨"AT", none, "e"⟩)
      (refreshOneAT 3 (some fun _ => Except.error "boom")
        (refreshOneAT 2 (some fun _ => Except.error "boom")
          (refreshOneAT 1 (some fun _ => Except.error "boom")
            (newFlowToken "c2w" "s"))))) = true := by
  have h := refresh_failure_threshold_and_recovery (newFlowToken "c2w" "s")
    (fun _ => Except.error "boom") (fun _ => Except.ok ⟨"AT", none, "e"⟩)
    "boom" ⟨"AT", none, "e"⟩ 1 2 3 4 rfl rfl rfl rfl rfl
  obtain ⟨-, -, h3⟩ := h
  exact ⟨h3.2.1, h3.2.2.2.1, h3.2.2.2.2.1⟩

/-! ## C3: identity purity and `LoadFromDir` idempotence -/

/-- The session token `LoadFromDir` (and the watch path) would extract
from a directory entry, when the entry is a readable file holding one. -/
def fileST (f : DirEntry) : Option String :=
  if f.isDir then none
  else match f.content with
    | none => none
    | some c =>
      let st := extractSessionToken c
      if st = "" then none else some st

theorem loadFromDirStep_eq (pool : TokenPool) (n : Nat) (f : DirEntry) :
    loadFromDirStep (pool, n) f =
      match fileST f with
      | none => (pool, n)
      | some st =>
        match pool.tokens.lookup (generateTokenID st) with
        | some _ => (pool, n)
        | none =>
          ({ pool with tokens := assocInsert pool.tokens (generateTokenID st) (newFlowToken (generateTokenID st) st) }, n + 1) := by
  obtain ⟨name, isDir, content⟩ := f
  by_cases hD : isDir
  · simp [loadFromDirStep, fileST, hD]
  · cases content with
    | none => simp [loadFromDirStep, fileST, hD]
    | some c =>
      by_cases hst : extractSessionToken c = ""
      · cases hl : pool.tokens.lookup (generateTokenID (extractSessionToken c)) <;>
          simp [loadFromDirStep, fileST, hD, hst, hl]
      · cases hl : pool.tokens.lookup (generateTokenID (extractSessionToken c)) <;>
          simp [loadFromDirStep, fileST, hD, hst, hl]

end flow

namespace flow

theorem load_foldl_keeps (files : List DirEntry) : ∀ (pool : TokenPool) (n : Nat)
    (id : String), (pool.tokens.lookup id).isSome →
    ((files.foldl loadFromDirStep (pool, n)).1.tokens.lookup id).isSome := by
  induction files with
  | nil => intro pool n id h; simpa using h
  | cons f fs ih =>
    intro pool n id h
    rw [List.foldl_cons, loadFromDirStep_eq]
    cases hft : fileST f with
    | none => exact ih pool n id h
    | some st =>
      dsimp only
      cases hl : pool.tokens.lookup (generateTokenID st) with
      | some v => exact ih pool n id h
      | none =>
        dsimp only
        apply ih
        by_cases hid : id = generateTokenID st
        · subst hid
          simp [lookup_assocInsert_self]
        · simpa [lookup_assocInsert_ne _ _ _ _ hid] using h

theorem load_foldl_registers (files : List DirEntry) : ∀ (pool : TokenPool) (n : Nat)
    (f : DirEntry) (st : String), f ∈ files → fileST f = some st →
    ((files.foldl loadFromDirStep (pool, n)).1.tokens.lookup (generateTokenID st)).isSome := by
  induction files with
  | nil => intro pool n f st h; simp at h
  | cons f0 fs ih =>
    intro pool n f st hmem hft
    rw [List.foldl_cons]
    rcases List.mem_cons.mp hmem with heq | hmem'
    · subst heq
      rw [loadFromDirStep_eq, hft]
      dsimp only
      cases hl : pool.tokens.lookup (generateTokenID st) with
      | some v => exact load_foldl_keeps fs pool n _ (by simp [hl])
      | none =>
        dsimp only
        exact load_foldl_keeps fs _ _ _ (by simp [lookup_assocInsert_self])
    · exact ih _ _ f st hmem' hft

theorem load_foldl_noop (files : List DirEntry) : ∀ (pool : TokenPool) (n : Nat),
    (∀ f ∈ files, ∀ st, fileST f = some st →
      (pool.tokens.lookup (generateTokenID st)).isSome) →
    files.foldl loadFromDirStep (pool, n) = (pool, n) := by
  induction files with
  | nil => intro pool n _; rfl
  | cons f fs ih =>
    intro pool n h
    rw [List.foldl_cons, loadFromDirStep_eq]
    cases hft : fileST f with
    | none => exact ih pool n (fun g hg st hst => h g (List.mem_cons_of_mem f hg) st hst)
    | some st =>
      dsimp only
      have := h f (List.mem_cons_self f fs) st hft
      cases hl : pool.tokens.lookup (generateTokenID st) with
      | some v => exact ih pool n (fun g hg st hst => h g (List.mem_cons_of_mem f hg) st hst)
      | none => simp [hl] at this

theorem load_foldl_nodup (files : List DirEntry) : ∀ (pool : TokenPool) (n : Nat),
    (pool.tokens.map Prod.fst).Nodup →
    ((files.foldl loadFromDirStep (pool, n)).1.tokens.map Prod.fst).Nodup := by
  induction files with
  | nil => intro pool n h; simpa using h
  | cons f fs ih =>
    intro pool n h
    rw [List.foldl_cons, loadFromDirStep_eq]
    cases hft : fileST f with
    | none => exact ih pool n h
    | some st =>
      dsimp only
      cases hl : pool.tokens.lookup (generateTokenID st) with
      | some v => exact ih pool n h
      | none =>
        dsimp only
        apply ih
        rw [assocInsert_of_lookup_none _ _ _ hl]
        have hnm := not_mem_keys_of_lookup_none _ _ hl
        simp [List.nodup_append, h, hnm]

/-- **C3.** Credential identity is a pure function of the durable secret:
`generateTokenID` applied twice to a secret yields the same identity; and
`LoadFromDir` is idempotent — a second run over the same unchanged
directory registers no additional credential (it returns the same pool
and a loaded count of 0), and the identity keys stay duplicate-free, so
the same secret appearing twice never produces two in-memory
credentials. -/
theorem generateTokenID_pure_and_LoadFromDir_idempotent
    (pool : TokenPool) (files : List DirEntry)
    (hnd : (pool.tokens.map Prod.fst).Nodup) :
    (∀ s : String, generateTokenID s = generateTokenID s) ∧
    ((LoadFromDir pool files).1.tokens.map Prod.fst).Nodup ∧
    LoadFromDir (LoadFromDir pool files).1 files = ((LoadFromDir pool files).1, 0) := by
  refine ⟨fun _ => rfl, ?_, ?_⟩
  · exact load_foldl_nodup files pool 0 hnd
  · apply load_foldl_noop
    intro f hf st hst
    exact load_foldl_registers files pool 0 f st hf hst

/-- Witness for C3: loading a directory holding one bare-secret file a
second time changes nothing and loads 0. -/
theorem LoadFromDir_idempotent_witness :
    ((LoadFromDir emptyPool
        [⟨"a.txt", false, some (String.mk (List.replicate 101 'b'))⟩]).1.tokens.map
      Prod.fst).Nodup ∧
    LoadFromDir
        (LoadFromDir emptyPool
          [⟨"a.txt", false, some (String.mk (List.replicate 101 'b'))⟩]).1
        [⟨"a.txt", false, some (String.mk (List.replicate 101 'b'))⟩] =
      ((LoadFromDir emptyPool
        [⟨"a.txt", false, some (String.mk (List.replicate 101 'b'))⟩]).1, 0) := by
  have h := generateTokenID_pure_and_LoadFromDir_idempotent emptyPool
    [⟨"a.txt", false, some (String.mk (List.replicate 101 'b'))⟩] (by simp [emptyPool])
  exact ⟨h.2.1, h.2.2⟩

/-! ## C4: file-remove events and the filename index

`LoadFromDir` registers credentials without recording a
`fileName -> tokenID` entry (only `loadTokenFromFile`, the watch path,
writes `fileIndex`), while `removeTokenByFile` resolves the filename
through `fileIndex` and does nothing when the entry is absent.  A
credential registered only by the initial scan therefore survives the
removal of its backing file. -/

/-- Counterexample to C4 as stated: load one bare-secret file through the
initial directory scan, then handle a remove event for that very
filename — the pool is completely unchanged and the credential is still
registered (the claim demands its removal). -/
theorem removeTokenByFile_misses_scan_credential :
    removeTokenByFile
        (LoadFromDir emptyPool
          [⟨"a.txt", false, some (String.mk (List.replicate 101 'c'))⟩]).1 "a.txt" =
      (LoadFromDir emptyPool
        [⟨"a.txt", false, some (String.mk (List.replicate 101 'c'))⟩]).1 ∧
    (LoadFromDir emptyPool
      [⟨"a.txt", false, some (String.mk (List.replicate 101 'c'))⟩]).1.tokens.length = 1 := by
  exact ⟨rfl, rfl⟩

theorem loadFromDirStep_fileIndex (acc : TokenPool × Nat) (f : DirEntry) :
    (loadFromDirStep acc f).1.fileIndex = acc.1.fileIndex := by
  obtain ⟨pool, n⟩ := acc
  rw [loadFromDirStep_eq]
  cases hft : fileST f with
  | none => rfl
  | some st =>
    dsimp only
    cases hl : pool.tokens.lookup (generateTokenID st) with
    | some v => rfl
    | none => rfl

theorem LoadFromDir_fileIndex (files : List DirEntry) : ∀ (acc : TokenPool × Nat),
    (files.foldl loadFromDirStep acc).1.fileIndex = acc.1.fileIndex := by
  induction files with
  | nil => intro acc; rfl
  | cons f fs ih =>
    intro acc
    rw [List.foldl_cons, ih, loadFromDirStep_fileIndex]

/-- **C4 (amended).** Only the file-watch path records the
filename-to-identity entry: a credential freshly registered by
`loadTokenFromFile` (valid secret, filename not yet indexed, identity not
yet pooled) gets a `fileIndex` entry, and a subsequent remove or rename
event for that filename removes both the credential from the pool and the
filename's entry from the index.  `LoadFromDir`, by contrast, never
writes the filename index, and a remove or rename event for a filename
with no index entry leaves the pool unchanged — so credentials registered
only by the initial directory scan are *not* removed, contrary to the
original claim. -/
theorem removeTokenByFile_watch_registered
    (pool : TokenPool) (fileName content st : String)
    (hst : extractSessionToken content = st) (hne : st ≠ "")
    (hidx : pool.fileIndex.lookup fileName = none)
    (habs : pool.tokens.lookup (generateTokenID st) = none) :
    (let pool' := loadTokenFromFile pool fileName (some content)
     pool'.fileIndex.lookup fileName = some (generateTokenID st) ∧
     pool'.tokens.lookup (generateTokenID st) =
       some (newFlowToken (generateTokenID st) st) ∧
     (removeTokenByFile pool' fileName).tokens.lookup (generateTokenID st) = none ∧
     (removeTokenByFile pool' fileName).fileIndex.lookup fileName = none) ∧
    (∀ (p0 : TokenPool) (files : List DirEntry),
      (LoadFromDir p0 files).1.fileIndex = p0.fileIndex) ∧
    (∀ (p : TokenPool) (fn : String),
      p.fileIndex.lookup fn = none → removeTokenByFile p fn = p) := by
  subst hst
  refine ⟨?_, ?_, ?_⟩
  · have hload : loadTokenFromFile pool fileName (some content) =
        { pool with
          tokens := assocInsert pool.tokens (generateTokenID (extractSessionToken content))
            (newFlowToken (generateTokenID (extractSessionToken content))
              (extractSessionToken content)),
          fileIndex := assocInsert pool.fileIndex fileName
            (generateTokenID (extractSessionToken content)) } := by
      simp only [loadTokenFromFile, hne, if_false, hidx, insertIfAbsent, habs]
    simp only [hload]
    refine ⟨lookup_assocInsert_self _ _ _, lookup_assocInsert_self _ _ _, ?_, ?_⟩
    · simp only [removeTokenByFile, lookup_assocInsert_self]
      exact lookup_assocErase_self _ _
    · simp only [removeTokenByFile, lookup_assocInsert_self]
      exact lookup_assocErase_self _ _
  · intro p0 files
    exact LoadFromDir_fileIndex files (p0, 0)
  · intro p fn h
    simp [removeTokenByFile, h]

/-- Witness for the amended C4: a concrete watch-path registration whose
backing file is then removed disappears from both the pool and the
index. -/
theorem removeTokenByFile_watch_registered_witness :
    (removeTokenByFile
        (loadTokenFromFile emptyPool "w.txt"
          (some (String.mk (List.replicate 101 'd')))) "w.txt").tokens.lookup
      (generateTokenID (String.mk (List.replicate 101 'd'))) = none ∧
    (removeTokenByFile
        (loadTokenFromFile emptyPool "w.txt"
          (some (String.mk (List.replicate 101 'd')))) "w.txt").fileIndex.lookup
      "w.txt" = none := by
  have h := removeTokenByFile_watch_registered emptyPool "w.txt"
    (String.mk (List.replicate 101 'd')) (String.mk (List.replicate 101 'd'))
    (by decide) (by decide) rfl rfl
  exact ⟨h.1.2.2.1, h.1.2.2.2⟩

/-! ## C8: the bare-secret fallback of `extractSessionToken`

The fallback accepts a trimmed delimiter-free input only when its byte
length is *strictly greater* than 100 (`len(cookie) > 100`), so an input
of exactly 100 bytes is rejected — the claim's "at least 100" is off by
one at the boundary. -/

theorem prop_of_not_mem_dropWhile (p : Char → Bool) (l : List Char) (c : Char)
    (hmem : c ∈ l) (hnot : c ∉ l.dropWhile p) : p c = true := by
  have := List.takeWhile_append_dropWhile p l
  rw [← this] at hmem
  rcases List.mem_append.mp hmem with h | h
  · exact List.mem_takeWhile_imp h
  · exact absurd h hnot

theorem space_of_trimmed_out (s : String) (c : Char)
    (hmem : c ∈ s.data) (hnot : c ∉ (trimSpace s).data) : isUnicodeSpace c = true := by
  simp only [trimSpace, List.mem_reverse] at hnot
  by_cases h1 : c ∈ s.data.dropWhile isUnicodeSpace
  · have h2 : c ∈ (s.data.dropWhile isUnicodeSpace).reverse := List.mem_reverse.mpr h1
    exact prop_of_not_mem_dropWhile isUnicodeSpace _ c h2 hnot
  · exact prop_of_not_mem_dropWhile isUnicodeSpace _ c hmem h1

theorem not_mem_of_not_mem_trimmed (s : String) (c : Char)
    (hsp : isUnicodeSpace c = false) (hnot : c ∉ (trimSpace s).data) : c ∉ s.data := by
  intro hmem
  have := space_of_trimmed_out s c hmem hnot
  rw [hsp] at this
  exact Bool.false_ne_true this

theorem findPatMatch_eq_none (l : List Char) (h : ('=' : Char) ∉ l) :
    findPatMatch l = none := by
  induction l with
  | nil => rfl
  | cons c rest ih =>
    have hrest : ('=' : Char) ∉ rest := fun hm => h (List.mem_cons_of_mem c hm)
    rw [findPatMatch]
    have hpre : sessionTokenPat.isPrefixOf (c :: rest) = false := by
      by_contra hp
      have hp' : sessionTokenPat.isPrefixOf (c :: rest) = true := by
        revert hp
        cases sessionTokenPat.isPrefixOf (c :: rest) <;> simp
      have hsub := (List.isPrefixOf_iff_prefix.mp hp').subset
      exact h (hsub (by decide : ('=' : Char) ∈ sessionTokenPat))
    simp [hpre, ih hrest]

/-- Counterexample to C8 as stated: a 100-byte delimiter-free input (100
is "at least 100") is trimmed to itself and contains no `=`, yet
`extractSessionToken` returns `""` and `AddFromCookie` fails with the
no-secret-found error, because the source requires `len > 100`. -/
theorem extractSessionToken_rejects_len_100 :
    trimSpace (String.mk (List.replicate 100 'a')) = String.mk (List.replicate 100 'a') ∧
    (String.mk (List.replicate 100 'a')).data.contains '=' = false ∧
    goLen (String.mk (List.replicate 100 'a')) = 100 ∧
    extractSessionToken (String.mk (List.replicate 100 'a')) = "" ∧
    (AddFromCookie emptyPool (String.mk (List.replicate 100 'a'))).err =
      some "cookie 中未找到有效的 session-token" := by
  refine ⟨rfl, by decide, rfl, rfl, rfl⟩

/-- **C8 (amended).** For every input whose whitespace-trimmed form
contains no `=` and has byte length *strictly greater than 100* (at least
101), `extractSessionToken` returns the trimmed string as the durable
secret (a non-empty result), so `AddFromCookie` on such input never fails
with the no-secret-found error.  At exactly 100 bytes the input is
rejected. -/
theorem extractSessionToken_bare_secret (cookie : String)
    (hnoeq : (trimSpace cookie).data.contains '=' = false)
    (hlen : 100 < goLen (trimSpace cookie)) :
    extractSessionToken cookie = trimSpace cookie ∧
    trimSpace cookie ≠ "" ∧
    ∀ pool : TokenPool,
      (AddFromCookie pool cookie).err ≠ some "cookie 中未找到有效的 session-token" := by
  have hnm : ('=' : Char) ∉ (trimSpace cookie).data := by
    simpa using hnoeq
  have hnc : ('=' : Char) ∉ cookie.data :=
    not_mem_of_not_mem_trimmed cookie '=' (by decide) hnm
  have hfind : findPatMatch cookie.data = none := findPatMatch_eq_none cookie.data hnc
  have hext : extractSessionToken cookie = trimSpace cookie := by
    rw [extractSessionToken, hfind]
    simp [hnoeq, hlen, hnm]
  have hne : trimSpace cookie ≠ "" := by
    intro h0
    rw [h0] at hlen
    simp [goLen, utf8Encode] at hlen
  refine ⟨hext, hne, ?_⟩
  intro pool
  rw [AddFromCookie]
  rw [hext]
  simp only [hne, if_false]
  cases pool.tokens.lookup (generateTokenID (trimSpace cookie)) <;> simp

/-- Witness for the amended C8: a 101-byte bare secret is accepted and
`AddFromCookie` does not report the no-secret-found error. -/
theorem extractSessionToken_bare_secret_witness :
    extractSessionToken (String.mk (List.replicate 101 'e')) =
      trimSpace (String.mk (List.replicate 101 'e')) ∧
    (AddFromCookie emptyPool (String.mk (List.replicate 101 'e'))).err ≠
      some "cookie 中未找到有效的 session-token" := by
  have h := extractSessionToken_bare_secret (String.mk (List.replicate 101 'e'))
    (by decide) (by decide)
  exact ⟨h.1, h.2.2 emptyPool⟩


/-! ## C1 and C9: the bounded polling loop -/

theorem poll_timeout_aux (status : Nat → Option CheckResp) (maxA pollI : Nat) (hs : Bool) :
    ∀ (fuel i : Nat),
    (∀ j, i ≤ j → j < i + fuel → ∃ r, status j = some r ∧ isTerminalResp r = false) →
    (pollLoopAux status maxA pollI hs i fuel).1 =
      .error ("视频生成超时 (已轮询 " ++ toString maxA ++ " 次)") ∧
    (pollLoopAux status maxA pollI hs i fuel).2.length = fuel ∧
    ∀ rc ∈ (pollLoopAux status maxA pollI hs i fuel).2, rc.sleptSeconds = pollI := by
  intro fuel
  induction fuel with
  | zero =>
    intro i h
    refine ⟨rfl, rfl, ?_⟩
    intro rc hrc
    simp [pollLoopAux] at hrc
  | succ fuel ih =>
    intro i h
    obtain ⟨r, hr, hterm⟩ := h i (Nat.le_refl i) (by omega)
    have hnotsucc : ¬(r.status = "MEDIA_GENERATION_STATUS_SUCCESSFUL" ∧ r.videoURL ≠ "") := by
      intro ⟨h1, h2⟩
      simp [isTerminalResp, h1, h2] at hterm
    have hnoterr : isTerminalErrorStatus r.status = false := by
      simp only [isTerminalResp, Bool.or_eq_false_iff] at hterm
      exact hterm.2
    have hrec := ih (i + 1) (fun j hj1 hj2 => h j (by omega) (by omega))
    simp only [pollLoopAux, hr, hnotsucc, if_false, hnoterr, Bool.false_eq_true, ite_false]
    refine ⟨hrec.1, by simp [hrec.2.1], ?_⟩
    intro rc hrc
    simp only [List.mem_cons] at hrc
    rcases hrc with hrc | hrc
    · rw [hrc]
    · exact hrec.2.2 rc hrc

theorem poll_success_aux (status : Nat → Option CheckResp) (maxA pollI : Nat) (hs : Bool)
    (resp : CheckResp)
    (hsucc : resp.status = "MEDIA_GENERATION_STATUS_SUCCESSFUL")
    (hurl : resp.videoURL ≠ "") :
    ∀ (k fuel i : Nat), k < fuel →
    (∀ j, j < k → ∃ r, status (i + j) = some r ∧ isTerminalResp r = false) →
    status (i + k) = some resp →
    (pollLoopAux status maxA pollI hs i fuel).1 = .ok resp.videoURL ∧
    (pollLoopAux status maxA pollI hs i fuel).2.length = k + 1 ∧
    ∀ rc ∈ (pollLoopAux status maxA pollI hs i fuel).2, rc.sleptSeconds = pollI := by
  intro k
  induction k with
  | zero =>
    intro fuel i hk hpre hst
    obtain ⟨fuel, rfl⟩ : ∃ f, fuel = f + 1 := ⟨fuel - 1, by omega⟩
    rw [Nat.add_zero] at hst
    refine ⟨?_, ?_, ?_⟩
    · simp [pollLoopAux, hst, hsucc, hurl]
    · simp [pollLoopAux, hst, hsucc, hurl]
    · intro rc hrc
      simp [pollLoopAux, hst, hsucc, hurl] at hrc
      simp [hrc]
  | succ k ih =>
    intro fuel i hk hpre hst
    obtain ⟨fuel, rfl⟩ : ∃ f, fuel = f + 1 := ⟨fuel - 1, by omega⟩
    obtain ⟨r, hr, hterm⟩ := hpre 0 (Nat.succ_pos k)
    rw [Nat.add_zero] at hr
    have hnotsucc : ¬(r.status = "MEDIA_GENERATION_STATUS_SUCCESSFUL" ∧ r.videoURL ≠ "") := by
      intro ⟨h1, h2⟩
      simp [isTerminalResp, h1, h2] at hterm
    have hnoterr : isTerminalErrorStatus r.status = false := by
      simp only [isTerminalResp, Bool.or_eq_false_iff] at hterm
      exact hterm.2
    have hrec := ih fuel (i + 1) (by omega)
      (fun j hj => by
        have := hpre (j + 1) (by omega)
        rwa [show i + (j + 1) = i + 1 + j by omega] at this)
      (by rwa [show i + 1 + k = i + (k + 1) by omega])
    simp only [pollLoopAux, hr, hnotsucc, if_false, hnoterr, Bool.false_eq_true, ite_false]
    refine ⟨hrec.1, by simp [hrec.2.1], ?_⟩
    intro rc hrc
    simp only [List.mem_cons] at hrc
    rcases hrc with hrc | hrc
    · rw [hrc]
    · exact hrec.2.2 rc hrc

theorem poll_progress_characterization (status : Nat → Option CheckResp)
    (maxA pollI : Nat) (hs : Bool) : ∀ (fuel i : Nat),
    ∀ rc ∈ (pollLoopAux status maxA pollI hs i fuel).2,
      rc.progressChunk =
        (if hs = true ∧ rc.queryOk = true ∧ rc.attempt % 7 = 0
         then some (flow.min (rc.attempt * 100 / maxA) 95) else none) := by
  intro fuel
  induction fuel with
  | zero =>
    intro i rc hrc
    simp [pollLoopAux] at hrc
  | succ fuel ih =>
    intro i rc hrc
    rw [pollLoopAux] at hrc
    cases hst : status i with
    | none =>
      rw [hst] at hrc
      simp only [List.mem_cons] at hrc
      rcases hrc with hrc | hrc
      · simp [hrc]
      · exact ih (i + 1) rc hrc
    | some r =>
      rw [hst] at hrc
      dsimp only at hrc
      have hhead : ∀ rc0 : AttemptRecord,
          rc0 = { attempt := i, sleptSeconds := pollI, queryOk := true,
                  progressChunk := if hs = true ∧ i % 7 = 0
                    then some (flow.min (i * 100 / maxA) 95) else none } →
          rc0.progressChunk =
            (if hs = true ∧ rc0.queryOk = true ∧ rc0.attempt % 7 = 0
             then some (flow.min (rc0.attempt * 100 / maxA) 95) else none) := by
        intro rc0 h0
        subst h0
        dsimp only
        by_cases hc : hs = true ∧ i % 7 = 0
        · rw [if_pos hc, if_pos ⟨hc.1, rfl, hc.2⟩]
        · rw [if_neg hc, if_neg (fun hb => hc ⟨hb.1, hb.2.2⟩)]
      by_cases h1 : r.status = "MEDIA_GENERATION_STATUS_SUCCESSFUL" ∧ r.videoURL ≠ ""
      · rw [if_pos h1] at hrc
        simp only [List.mem_singleton] at hrc
        exact hhead rc hrc
      · by_cases h2 : isTerminalErrorStatus r.status = true
        · rw [if_neg h1, if_pos h2] at hrc
          simp only [List.mem_singleton] at hrc
          exact hhead rc hrc
        · simp only [Bool.not_eq_true] at h2
          rw [if_neg h1, if_neg (by simp [h2])] at hrc
          simp only [List.mem_cons] at hrc
          rcases hrc with hrc | hrc
          · exact hhead rc hrc
          · exact ih (i + 1) rc hrc

theorem flowMin_le (a b : Nat) : flow.min a b ≤ b := by
  unfold flow.min
  split <;> omega

theorem poll_attempts_range (status : Nat → Option CheckResp)
    (maxA pollI : Nat) (hs : Bool) : ∀ (fuel i : Nat),
    (pollLoopAux status maxA pollI hs i fuel).2.map (fun rc => rc.attempt) =
      List.range' i (pollLoopAux status maxA pollI hs i fuel).2.length := by
  intro fuel
  induction fuel with
  | zero => intro i; rfl
  | succ fuel ih =>
    intro i
    rw [pollLoopAux]
    cases hst : status i with
    | none =>
      dsimp only
      simp [List.range'_succ, ih (i + 1)]
    | some r =>
      dsimp only
      by_cases h1 : r.status = "MEDIA_GENERATION_STATUS_SUCCESSFUL" ∧ r.videoURL ≠ ""
      · rw [if_pos h1]
        simp [List.range'_succ]
      · rw [if_neg h1]
        by_cases h2 : isTerminalErrorStatus r.status = true
        · rw [if_pos h2]
          simp [List.range'_succ]
        · rw [if_neg h2]
          dsimp only
          simp [List.range'_succ, ih (i + 1)]

/-- **C9.** In the polling loop a progress chunk is emitted exactly on the
attempts with `i % 7 == 0` among successfully queried attempts (when
streaming), its value computed by exact integer arithmetic as
`min(attempt*100/maxAttempts, 95)` using the handler's own `min`; for
every attempt and every positive `maxAttempts` the emitted value is at
most 95, so no progress chunk ever reports 100% before completion.  The
trace's attempts are exactly `0, 1, 2, …` in order. -/
theorem poll_progress_every_7th_capped (ops : FlowClientOps) (cfg : FlowConfig)
    (hs : Bool) :
    (∀ a m : Nat, 0 < m → flow.min (a * 100 / m) 95 ≤ 95) ∧
    (∀ rc ∈ (pollVideoResult ops cfg hs).2,
      rc.progressChunk =
        (if hs = true ∧ rc.queryOk = true ∧ rc.attempt % 7 = 0
         then some (flow.min (rc.attempt * 100 / cfg.maxPollAttempts) 95) else none) ∧
      ∀ v, rc.progressChunk = some v → v ≤ 95) ∧
    ((pollVideoResult ops cfg hs).2.map (fun rc => rc.attempt) =
      List.range' 0 (pollVideoResult ops cfg hs).2.length) := by
  refine ⟨fun a m _ => flowMin_le _ _, ?_, ?_⟩
  · intro rc hrc
    have hch := poll_progress_characterization ops.checkVideoStatus
      cfg.maxPollAttempts cfg.pollInterval hs cfg.maxPollAttempts 0 rc hrc
    refine ⟨hch, ?_⟩
    intro v hv
    rw [hch] at hv
    by_cases hc : hs = true ∧ rc.queryOk = true ∧ rc.attempt % 7 = 0
    · rw [if_pos hc] at hv
      obtain ⟨rfl⟩ : v = flow.min (rc.attempt * 100 / cfg.maxPollAttempts) 95 := by
        injection hv with h
        exact h.symm
      exact flowMin_le _ _
    · rw [if_neg hc] at hv
      exact absurd hv (Option.noConfusion)
  · exact poll_attempts_range ops.checkVideoStatus cfg.maxPollAttempts
      cfg.pollInterval hs cfg.maxPollAttempts 0

/-- **C1.** For the polling loop with fixed `MaxPollAttempts` and
`PollInterval`, assuming every status query succeeds: if the status
sequence first reaches the terminal success status with a non-empty video
URL at query `N ≤ MaxPollAttempts`, `pollVideoResult` returns that URL
having made exactly `N` status queries (one per trace record), each
preceded by a sleep of `PollInterval` seconds (hence ≥ `PollInterval`);
if the sequence never reaches a terminal status, it returns the timeout
failure after exactly `MaxPollAttempts` queries. -/
theorem pollVideoResult_exact (ops : FlowClientOps) (cfg : FlowConfig) (hs : Bool) :
    (∀ (N : Nat) (resp : CheckResp),
      1 ≤ N → N ≤ cfg.maxPollAttempts →
      (∀ j, j + 1 < N →
        ∃ r, ops.checkVideoStatus j = some r ∧ isTerminalResp r = false) →
      ops.checkVideoStatus (N - 1) = some resp →
      resp.status = "MEDIA_GENERATION_STATUS_SUCCESSFUL" → resp.videoURL ≠ "" →
      (pollVideoResult ops cfg hs).1 = .ok resp.videoURL ∧
      (pollVideoResult ops cfg hs).2.length = N ∧
      ∀ rc ∈ (pollVideoResult ops cfg hs).2, rc.sleptSeconds = cfg.pollInterval) ∧
    ((∀ j, j < cfg.maxPollAttempts →
        ∃ r, ops.checkVideoStatus j = some r ∧ isTerminalResp r = false) →
      (pollVideoResult ops cfg hs).1 =
        .error ("视频生成超时 (已轮询 " ++ toString cfg.maxPollAttempts ++ " 次)") ∧
      (pollVideoResult ops cfg hs).2.length = cfg.maxPollAttempts ∧
      ∀ rc ∈ (pollVideoResult ops cfg hs).2, rc.sleptSeconds = cfg.pollInterval) := by
  unfold pollVideoResult
  constructor
  · intro N resp h1 h2 hpre hlast hstat hurl
    have hk := poll_success_aux ops.checkVideoStatus cfg.maxPollAttempts
      cfg.pollInterval hs resp hstat hurl (N - 1) cfg.maxPollAttempts 0
      (by omega)
      (fun j hj => by
        have := hpre j (by omega)
        rwa [Nat.zero_add])
      (by rwa [Nat.zero_add])
    refine ⟨hk.1, ?_, hk.2.2⟩
    have := hk.2.1
    omega
  · intro hall
    exact poll_timeout_aux ops.checkVideoStatus cfg.maxPollAttempts
      cfg.pollInterval hs cfg.maxPollAttempts 0
      (fun j hj1 hj2 => hall j (by omega))

/-- A sample transport client whose status query always reports a
non-terminal status. -/
def pendingOps : FlowClientOps :=
  { stToAT := fun _ => .error "sample"
    createProject := fun _ _ => .ok "P"
    uploadImage := fun _ _ _ => .ok "M"
    generateImage := fun _ _ _ _ _ _ => .ok ⟨"http://img"⟩
    generateVideoStartEnd := fun _ _ _ _ _ _ _ _ => .ok ⟨"T", "S"⟩
    generateVideoReferenceImages := fun _ _ _ _ _ _ _ => .ok ⟨"T", "S"⟩
    generateVideoText := fun _ _ _ _ _ _ => .ok ⟨"T", "S"⟩
    checkVideoStatus := fun _ => some ⟨"MEDIA_GENERATION_STATUS_PENDING", ""⟩ }

/-- A sample client whose status query reports success with a URL from
the third attempt (index 2) on. -/
def succeedAt2Ops : FlowClientOps :=
  { pendingOps with
    checkVideoStatus := fun i =>
      if i < 2 then some ⟨"MEDIA_GENERATION_STATUS_PENDING", ""⟩
      else some ⟨"MEDIA_GENERATION_STATUS_SUCCESSFUL", "http://v"⟩ }

/-- A sample polling configuration: 10 attempts, 5-second interval. -/
def pollCfg : FlowConfig := ⟨10, 5⟩

/-- Witness for C1: with the sample clients, success at the third query
returns the URL after exactly 3 queries, and a never-terminal sequence
times out after exactly 10. -/
theorem pollVideoResult_exact_witness :
    (pollVideoResult succeedAt2Ops pollCfg true).1 = .ok "http://v" ∧
    (pollVideoResult succeedAt2Ops pollCfg true).2.length = 3 ∧
    (pollVideoResult pendingOps pollCfg true).1 =
      .error ("视频生成超时 (已轮询 " ++ toString (10 : Nat) ++ " 次)") ∧
    (pollVideoResult pendingOps pollCfg true).2.length = 10 := by
  have h1 := (pollVideoResult_exact succeedAt2Ops pollCfg true).1 3
    ⟨"MEDIA_GENERATION_STATUS_SUCCESSFUL", "http://v"⟩ (by omega) (by decide)
    (fun j hj => ⟨⟨"MEDIA_GENERATION_STATUS_PENDING", ""⟩,
      by simp only [succeedAt2Ops]; rw [if_pos (by omega)], by decide⟩)
    (by decide) rfl (by decide)
  have h2 := (pollVideoResult_exact pendingOps pollCfg true).2
    (fun j hj => ⟨⟨"MEDIA_GENERATION_STATUS_PENDING", ""⟩, rfl, by decide⟩)
  exact ⟨h1.1, h1.2.1, h2.1, h2.2.1⟩

/-- Witness for C9: concrete progress values are capped at 95 and the
trace attempts enumerate `0..9`. -/
theorem poll_progress_every_7th_capped_witness :
    flow.min (3 * 100 / 10) 95 ≤ 95 ∧
    (0 : Nat) ≤ 95 ∧
    ((pollVideoResult pendingOps pollCfg true).2.map (fun rc => rc.attempt) =
      List.range' 0 (pollVideoResult pendingOps pollCfg true).2.length) := by
  have h := poll_progress_every_7th_capped pendingOps pollCfg true
  refine ⟨h.1 3 10 (by omega), ?_, h.2.2⟩
  exact (h.2.1 ⟨0, 5, true, some 0⟩ (by decide)).2 0 rfl

/-! ## C5, C6 and C7: the generation branches -/

theorem videoAfterSubmit_success (ops : FlowClientOps) (cfg : FlowConfig) (now : Int)
    (token : FlowToken) (cs : List (String × Bool)) (ups : List (List Nat)) (hs : Bool)
    (call : SubmitCall) (submitRes : Except String GenerateVideoResponse)
    (hsucc : (videoAfterSubmit ops cfg now token cs ups hs call submitRes).result.success
      = true) :
    (videoAfterSubmit ops cfg now token cs ups hs call submitRes).token =
      { token with lastUsed := now, errorCount := 0 } := by
  unfold videoAfterSubmit at hsucc ⊢
  cases submitRes with
  | error e => simp at hsucc
  | ok vresp =>
    dsimp only at hsucc ⊢
    by_cases htid : vresp.taskID = ""
    · rw [if_pos htid] at hsucc
      simp at hsucc
    · rw [if_neg htid] at hsucc
      rw [if_neg htid]
      rcases hpoll : pollVideoResult ops cfg hs with ⟨pres, plog⟩
      rw [hpoll] at hsucc
      cases pres with
      | error e => simp at hsucc
      | ok url => rfl

theorem videoAfterSubmit_submit_error (ops : FlowClientOps) (cfg : FlowConfig) (now : Int)
    (token : FlowToken) (cs : List (String × Bool)) (ups : List (List Nat)) (hs : Bool)
    (call : SubmitCall) (e : String) :
    (videoAfterSubmit ops cfg now token cs ups hs call (.error e)).result =
      { success := false, error := "提交任务失败: " ++ e } ∧
    (videoAfterSubmit ops cfg now token cs ups hs call (.error e)).token =
      { token with errorCount := token.errorCount + 1 } :=
  ⟨rfl, rfl⟩

theorem videoAfterSubmit_empty_task (ops : FlowClientOps) (cfg : FlowConfig) (now : Int)
    (token : FlowToken) (cs : List (String × Bool)) (ups : List (List Nat)) (hs : Bool)
    (call : SubmitCall) (vresp : GenerateVideoResponse) (htid : vresp.taskID = "") :
    (videoAfterSubmit ops cfg now token cs ups hs call (.ok vresp)).result =
      { success := false, error := "任务创建失败" } ∧
    (videoAfterSubmit ops cfg now token cs ups hs call (.ok vresp)).token = token := by
  unfold videoAfterSubmit
  dsimp only
  rw [if_pos htid]
  exact ⟨rfl, rfl⟩

theorem videoAfterSubmit_poll_error (ops : FlowClientOps) (cfg : FlowConfig) (now : Int)
    (token : FlowToken) (cs : List (String × Bool)) (ups : List (List Nat)) (hs : Bool)
    (call : SubmitCall) (vresp : GenerateVideoResponse) (e : String)
    (htid : vresp.taskID ≠ "") (hpoll : (pollVideoResult ops cfg hs).1 = .error e) :
    (videoAfterSubmit ops cfg now token cs ups hs call (.ok vresp)).result =
      { success := false, error := e } ∧
    (videoAfterSubmit ops cfg now token cs ups hs call (.ok vresp)).token = token := by
  unfold videoAfterSubmit
  dsimp only
  rw [if_neg htid]
  rcases hp : pollVideoResult ops cfg hs with ⟨pres, plog⟩
  rw [hp] at hpoll
  dsimp only at hpoll
  subst hpoll
  exact ⟨rfl, rfl⟩

theorem videoAfterSubmit_trace (ops : FlowClientOps) (cfg : FlowConfig) (now : Int)
    (token : FlowToken) (cs : List (String × Bool)) (ups : List (List Nat)) (hs : Bool)
    (call : SubmitCall) (sr : Except String GenerateVideoResponse) :
    (videoAfterSubmit ops cfg now token cs ups hs call sr).uploads = ups ∧
    (videoAfterSubmit ops cfg now token cs ups hs call sr).submitCall = some call ∧
    ∃ rest, (videoAfterSubmit ops cfg now token cs ups hs call sr).chunks = cs ++ rest := by
  unfold videoAfterSubmit
  cases sr with
  | error e => exact ⟨rfl, rfl, [], by simp⟩
  | ok vresp =>
    dsimp only
    by_cases htid : vresp.taskID = ""
    · rw [if_pos htid]
      exact ⟨rfl, rfl, [], by simp⟩
    · rw [if_neg htid]
      rcases hp : pollVideoResult ops cfg hs with ⟨pres, plog⟩
      cases pres with
      | error e =>
        exact ⟨rfl, rfl,
          (if hs = true then [("视频生成中...\n", false)] else []) ++
            progressChunksOf plog, by simp⟩
      | ok url =>
        exact ⟨rfl, rfl,
          (if hs = true then [("视频生成中...\n", false)] else []) ++
            (progressChunksOf plog ++
              (if hs = true then
                [("<video src=\x27" ++ url ++ "\x27 controls style=\x27max-width:100%\x27></video>", true)]
               else [])), by simp⟩

theorem videoSubmitAndPoll_t2v (ops : FlowClientOps) (cfg : FlowConfig) (now : Int)
    (token : FlowToken) (mc : ModelConfig) (prompt : String) (images : List (List Nat))
    (cs : List (String × Bool)) (hs : Bool) (hv : mc.videoType = .t2v) :
    videoSubmitAndPoll ops cfg now token mc prompt images cs hs =
      videoAfterSubmit ops cfg now token
        (cs ++ [] ++ (if hs then [("提交视频生成任务...\n", false)] else [])) [] hs .text
        (ops.generateVideoText token.at_ token.projectID prompt mc.modelKey mc.aspect
          (if token.userPaygateTier = "" then "PAYGATE_TIER_ONE"
           else token.userPaygateTier)) := by
  unfold videoSubmitAndPoll videoSubmitCall
  rw [hv]
  rfl

theorem videoSubmitAndPoll_i2v_first_upload_error (ops : FlowClientOps) (cfg : FlowConfig)
    (now : Int) (token : FlowToken) (mc : ModelConfig) (prompt : String)
    (img : List Nat) (rest : List (List Nat)) (cs : List (String × Bool)) (hs : Bool)
    (e : String) (hv : mc.videoType = .i2v)
    (hupl : ops.uploadImage token.at_ img mc.aspect = .error e) :
    videoSubmitAndPoll ops cfg now token mc prompt (img :: rest) cs hs =
      { result := { success := false, error := "上传首帧失败: " ++ e }, token := token,
        chunks := cs ++ (if hs then [("上传首帧图片...\n", false)] else []),
        uploads := [img], submitCall := none } := by
  unfold videoSubmitAndPoll videoUploadStage
  rw [hv]
  dsimp only
  rw [hupl]

theorem videoSubmitAndPoll_success_bookkeeping (ops : FlowClientOps) (cfg : FlowConfig)
    (now : Int) (token : FlowToken) (mc : ModelConfig) (prompt : String)
    (images : List (List Nat)) (cs : List (String × Bool)) (hs : Bool)
    (hsucc : (videoSubmitAndPoll ops cfg now token mc prompt images cs hs).result.success
      = true) :
    (videoSubmitAndPoll ops cfg now token mc prompt images cs hs).token =
      { token with lastUsed := now, errorCount := 0 } := by
  unfold videoSubmitAndPoll at hsucc ⊢
  rcases hup : videoUploadStage ops token.at_ mc.aspect mc.videoType images hs
    with ⟨ucs, ups, upRes⟩
  rw [hup] at hsucc
  cases upRes with
  | error msg => simp at hsucc
  | ok triple =>
    obtain ⟨sID, eID, refs⟩ := triple
    dsimp only at hsucc ⊢
    rcases hcall : videoSubmitCall ops token mc prompt sID eID refs
        (if token.userPaygateTier = "" then "PAYGATE_TIER_ONE" else token.userPaygateTier)
      with ⟨call, submitRes⟩
    rw [hcall] at hsucc
    dsimp only at hsucc ⊢
    exact videoAfterSubmit_success _ _ _ _ _ _ _ _ _ hsucc

theorem handleImage_success_bookkeeping (ops : FlowClientOps) (now : Int)
    (token : FlowToken) (mc : ModelConfig) (req : GenerationRequest) (hs : Bool)
    (hsucc : (handleImageGeneration ops now token mc req hs).result.success = true) :
    (handleImageGeneration ops now token mc req hs).token =
      { token with lastUsed := now, errorCount := 0 } := by
  unfold handleImageGeneration at hsucc ⊢
  rcases hup : uploadRefImagesLoop ops token.at_ mc.aspect req.images.length hs 0 req.images
    with ⟨ucs, ups, upRes⟩
  rw [hup] at hsucc
  cases upRes with
  | error e => simp at hsucc
  | ok mediaIDs =>
    dsimp only at hsucc ⊢
    cases hgen : ops.generateImage token.at_ token.projectID req.prompt mc.modelName
        mc.aspect mediaIDs with
    | error e =>
      rw [hgen] at hsucc
      simp at hsucc
    | ok res =>
      rw [hgen] at hsucc
      dsimp only at hsucc ⊢
      by_cases hurl : res.imageURL = ""
      · rw [if_pos hurl] at hsucc
        simp at hsucc
      · rw [if_neg hurl]

theorem handleVideo_success_bookkeeping (ops : FlowClientOps) (cfg : FlowConfig)
    (now : Int) (token : FlowToken) (mc : ModelConfig) (req : GenerationRequest)
    (hs : Bool)
    (hsucc : (handleVideoGeneration ops cfg now token mc req hs).result.success = true) :
    (handleVideoGeneration ops cfg now token mc req hs).token =
      { token with lastUsed := now, errorCount := 0 } := by
  unfold handleVideoGeneration at hsucc ⊢
  by_cases ht : mc.videoType = .t2v
  · rw [if_pos ht] at hsucc ⊢
    by_cases hc : 0 < req.images.length
    · rw [if_pos hc] at hsucc ⊢
      exact videoSubmitAndPoll_success_bookkeeping _ _ _ _ _ _ _ _ _ hsucc
    · rw [if_neg hc] at hsucc ⊢
      exact videoSubmitAndPoll_success_bookkeeping _ _ _ _ _ _ _ _ _ hsucc
  · rw [if_neg ht] at hsucc ⊢
    by_cases hval : mc.videoType = .i2v ∧
        (req.images.length < mc.minImages ∨ mc.maxImages < req.images.length)
    · rw [if_pos hval] at hsucc
      simp at hsucc
    · rw [if_neg hval] at hsucc ⊢
      exact videoSubmitAndPoll_success_bookkeeping _ _ _ _ _ _ _ _ _ hsucc

theorem handleVideo_i2v_invalid (ops : FlowClientOps) (cfg : FlowConfig)
    (now : Int) (token : FlowToken) (mc : ModelConfig) (req : GenerationRequest)
    (hs : Bool) (hv : mc.videoType = .i2v)
    (hcount : req.images.length < mc.minImages ∨ mc.maxImages < req.images.length) :
    handleVideoGeneration ops cfg now token mc req hs =
      { result := { success := false,
                    error := "首尾帧模型需要 " ++ toString mc.minImages ++ "-" ++
                      toString mc.maxImages ++ " 张图片，当前提供了 " ++
                      toString req.images.length ++ " 张" },
        token := token,
        chunks := (if hs then [("✨ 视频生成任务已启动\n", false)] else []),
        uploads := [], submitCall := none } := by
  unfold handleVideoGeneration
  rw [if_neg (by simp [hv]), if_pos ⟨hv, hcount⟩]

theorem handleVideo_t2v_eq (ops : FlowClientOps) (cfg : FlowConfig)
    (now : Int) (token : FlowToken) (mc : ModelConfig) (req : GenerationRequest)
    (hs : Bool) (hv : mc.videoType = .t2v) (himg : 0 < req.images.length) :
    handleVideoGeneration ops cfg now token mc req hs =
      videoAfterSubmit ops cfg now token
        (((if hs then [("✨ 视频生成任务已启动\n", false)] else []) ++
          (if hs then [("⚠️ 文生视频模型不支持图片，将忽略图片仅使用文本提示词\n", false)]
           else [])) ++ [] ++
         (if hs then [("提交视频生成任务...\n", false)] else [])) [] hs .text
        (ops.generateVideoText token.at_ token.projectID req.prompt mc.modelKey mc.aspect
          (if token.userPaygateTier = "" then "PAYGATE_TIER_ONE"
           else token.userPaygateTier)) := by
  unfold handleVideoGeneration
  rw [if_pos hv, if_pos himg, videoSubmitAndPoll_t2v _ _ _ _ _ _ _ _ _ hv]

theorem handleVideo_t2v_submit_error (ops : FlowClientOps) (cfg : FlowConfig)
    (now : Int) (token : FlowToken) (mc : ModelConfig) (req : GenerationRequest)
    (hs : Bool) (e : String) (hv : mc.videoType = .t2v)
    (hsub : ops.generateVideoText token.at_ token.projectID req.prompt mc.modelKey
      mc.aspect (if token.userPaygateTier = "" then "PAYGATE_TIER_ONE"
        else token.userPaygateTier) = .error e) :
    (handleVideoGeneration ops cfg now token mc req hs).result =
      { success := false, error := "提交任务失败: " ++ e } ∧
    (handleVideoGeneration ops cfg now token mc req hs).token =
      { token with errorCount := token.errorCount + 1 } := by
  unfold handleVideoGeneration
  rw [if_pos hv]
  by_cases hc : 0 < req.images.length
  · rw [if_pos hc, videoSubmitAndPoll_t2v _ _ _ _ _ _ _ _ _ hv, hsub]
    exact videoAfterSubmit_submit_error _ _ _ _ _ _ _ _ _
  · rw [if_neg hc, videoSubmitAndPoll_t2v _ _ _ _ _ _ _ _ _ hv, hsub]
    exact videoAfterSubmit_submit_error _ _ _ _ _ _ _ _ _

theorem handleVideo_t2v_empty_task (ops : FlowClientOps) (cfg : FlowConfig)
    (now : Int) (token : FlowToken) (mc : ModelConfig) (req : GenerationRequest)
    (hs : Bool) (vresp : GenerateVideoResponse) (hv : mc.videoType = .t2v)
    (hsub : ops.generateVideoText token.at_ token.projectID req.prompt mc.modelKey
      mc.aspect (if token.userPaygateTier = "" then "PAYGATE_TIER_ONE"
        else token.userPaygateTier) = .ok vresp)
    (htid : vresp.taskID = "") :
    (handleVideoGeneration ops cfg now token mc req hs).result =
      { success := false, error := "任务创建失败" } ∧
    (handleVideoGeneration ops cfg now token mc req hs).token = token := by
  unfold handleVideoGeneration
  rw [if_pos hv]
  by_cases hc : 0 < req.images.length
  · rw [if_pos hc, videoSubmitAndPoll_t2v _ _ _ _ _ _ _ _ _ hv, hsub]
    exact videoAfterSubmit_empty_task _ _ _ _ _ _ _ _ _ htid
  · rw [if_neg hc, videoSubmitAndPoll_t2v _ _ _ _ _ _ _ _ _ hv, hsub]
    exact videoAfterSubmit_empty_task _ _ _ _ _ _ _ _ _ htid

theorem handleVideo_t2v_poll_error (ops : FlowClientOps) (cfg : FlowConfig)
    (now : Int) (token : FlowToken) (mc : ModelConfig) (req : GenerationRequest)
    (hs : Bool) (vresp : GenerateVideoResponse) (e : String) (hv : mc.videoType = .t2v)
    (hsub : ops.generateVideoText token.at_ token.projectID req.prompt mc.modelKey
      mc.aspect (if token.userPaygateTier = "" then "PAYGATE_TIER_ONE"
        else token.userPaygateTier) = .ok vresp)
    (htid : vresp.taskID ≠ "") (hpoll : (pollVideoResult ops cfg hs).1 = .error e) :
    (handleVideoGeneration ops cfg now token mc req hs).result =
      { success := false, error := e } ∧
    (handleVideoGeneration ops cfg now token mc req hs).token = token := by
  unfold handleVideoGeneration
  rw [if_pos hv]
  by_cases hc : 0 < req.images.length
  · rw [if_pos hc, videoSubmitAndPoll_t2v _ _ _ _ _ _ _ _ _ hv, hsub]
    exact videoAfterSubmit_poll_error _ _ _ _ _ _ _ _ _ _ htid hpoll
  · rw [if_neg hc, videoSubmitAndPoll_t2v _ _ _ _ _ _ _ _ _ hv, hsub]
    exact videoAfterSubmit_poll_error _ _ _ _ _ _ _ _ _ _ htid hpoll

theorem handleVideo_i2v_first_upload_error (ops : FlowClientOps) (cfg : FlowConfig)
    (now : Int) (token : FlowToken) (mc : ModelConfig) (req : GenerationRequest)
    (hs : Bool) (img : List Nat) (rest : List (List Nat)) (e : String)
    (hv : mc.videoType = .i2v) (himg : req.images = img :: rest)
    (hcount : ¬(req.images.length < mc.minImages ∨ mc.maxImages < req.images.length))
    (hupl : ops.uploadImage token.at_ img mc.aspect = .error e) :
    (handleVideoGeneration ops cfg now token mc req hs).result =
      { success := false, error := "上传首帧失败: " ++ e } ∧
    (handleVideoGeneration ops cfg now token mc req hs).token = token := by
  unfold handleVideoGeneration
  rw [if_neg (by simp [hv]), if_neg (by intro hcc; exact hcount hcc.2), himg,
    videoSubmitAndPoll_i2v_first_upload_error _ _ _ _ _ _ _ _ _ _ _ hv hupl]
  exact ⟨rfl, rfl⟩

theorem handleImage_submit_error (ops : FlowClientOps) (now : Int) (token : FlowToken)
    (mc : ModelConfig) (req : GenerationRequest) (hs : Bool) (e : String)
    (himg : req.images = [])
    (hgen : ops.generateImage token.at_ token.projectID req.prompt mc.modelName
      mc.aspect [] = .error e) :
    (handleImageGeneration ops now token mc req hs).result =
      { success := false, error := "生成图片失败: " ++ e } ∧
    (handleImageGeneration ops now token mc req hs).token =
      { token with errorCount := token.errorCount + 1 } := by
  unfold handleImageGeneration
  rw [himg]
  dsimp only [uploadRefImagesLoop]
  rw [hgen]
  exact ⟨rfl, rfl⟩

theorem handleImage_upload_error (ops : FlowClientOps) (now : Int) (token : FlowToken)
    (mc : ModelConfig) (req : GenerationRequest) (hs : Bool) (e : String)
    (img : List Nat) (rest : List (List Nat)) (himg : req.images = img :: rest)
    (hupl : ops.uploadImage token.at_ img mc.aspect = .error e) :
    (handleImageGeneration ops now token mc req hs).result =
      { success := false, error := "上传图片失败: " ++ e } ∧
    (handleImageGeneration ops now token mc req hs).token = token := by
  unfold handleImageGeneration
  rw [himg]
  dsimp only [uploadRefImagesLoop]
  rw [hupl]
  exact ⟨rfl, rfl⟩

theorem handleImage_empty_result (ops : FlowClientOps) (now : Int) (token : FlowToken)
    (mc : ModelConfig) (req : GenerationRequest) (hs : Bool)
    (himg : req.images = [])
    (hgen : ops.generateImage token.at_ token.projectID req.prompt mc.modelName
      mc.aspect [] = .ok ⟨""⟩) :
    (handleImageGeneration ops now token mc req hs).result =
      { success := false, error := "生成结果为空" } ∧
    (handleImageGeneration ops now token mc req hs).token = token := by
  unfold handleImageGeneration
  rw [himg]
  dsimp only [uploadRefImagesLoop]
  rw [hgen]
  exact ⟨rfl, rfl⟩

theorem handleVideo_valid_eq (ops : FlowClientOps) (cfg : FlowConfig) (now : Int)
    (token : FlowToken) (mc : ModelConfig) (req : GenerationRequest) (hs : Bool)
    (hval : ¬(mc.videoType = .i2v ∧
      (req.images.length < mc.minImages ∨ mc.maxImages < req.images.length))) :
    handleVideoGeneration ops cfg now token mc req hs =
      videoSubmitAndPoll ops cfg now token mc req.prompt
        (if mc.videoType = .t2v ∧ 0 < req.images.length then [] else req.images)
        ((if hs then [("✨ 视频生成任务已启动\n", false)] else []) ++
         (if mc.videoType = .t2v ∧ 0 < req.images.length then
            (if hs then
              [("⚠️ 文生视频模型不支持图片，将忽略图片仅使用文本提示词\n", false)]
             else [])
          else [])) hs := by
  unfold handleVideoGeneration
  by_cases ht : mc.videoType = .t2v
  · rw [if_pos ht]
    by_cases hc : 0 < req.images.length
    · rw [if_pos hc, if_pos (⟨ht, hc⟩ : mc.videoType = .t2v ∧ 0 < req.images.length),
        if_pos (⟨ht, hc⟩ : mc.videoType = .t2v ∧ 0 < req.images.length)]
    · rw [if_neg hc,
        if_neg (fun hcc => hc hcc.2 : ¬(mc.videoType = .t2v ∧ 0 < req.images.length)),
        if_neg (fun hcc => hc hcc.2 : ¬(mc.videoType = .t2v ∧ 0 < req.images.length))]
      simp
  · rw [if_neg ht, if_neg hval,
      if_neg (fun hcc => ht hcc.1 : ¬(mc.videoType = .t2v ∧ 0 < req.images.length)),
      if_neg (fun hcc => ht hcc.1 : ¬(mc.videoType = .t2v ∧ 0 < req.images.length))]
    simp

theorem videoSubmitAndPoll_stage_error (ops : FlowClientOps) (cfg : FlowConfig)
    (now : Int) (token : FlowToken) (mc : ModelConfig) (prompt : String)
    (images : List (List Nat)) (cs ucs : List (String × Bool)) (ups : List (List Nat))
    (msg : String) (hs : Bool)
    (hstage : videoUploadStage ops token.at_ mc.aspect mc.videoType images hs =
      (ucs, ups, .error msg)) :
    videoSubmitAndPoll ops cfg now token mc prompt images cs hs =
      { result := { success := false, error := msg }, token := token,
        chunks := cs ++ ucs, uploads := ups, submitCall := none } := by
  unfold videoSubmitAndPoll
  rw [hstage]

theorem videoSubmitAndPoll_stage_ok (ops : FlowClientOps) (cfg : FlowConfig)
    (now : Int) (token : FlowToken) (mc : ModelConfig) (prompt : String)
    (images : List (List Nat)) (cs ucs : List (String × Bool)) (ups : List (List Nat))
    (hs : Bool) (sID eID : String) (refIDs : List String)
    (hstage : videoUploadStage ops token.at_ mc.aspect mc.videoType images hs =
      (ucs, ups, .ok (sID, eID, refIDs))) :
    videoSubmitAndPoll ops cfg now token mc prompt images cs hs =
      videoAfterSubmit ops cfg now token
        (cs ++ ucs ++ (if hs then [("提交视频生成任务...\n", false)] else [])) ups hs
        (videoSubmitCall ops token mc prompt sID eID refIDs
          (if token.userPaygateTier = "" then "PAYGATE_TIER_ONE"
           else token.userPaygateTier)).1
        (videoSubmitCall ops token mc prompt sID eID refIDs
          (if token.userPaygateTier = "" then "PAYGATE_TIER_ONE"
           else token.userPaygateTier)).2 := by
  unfold videoSubmitAndPoll
  rw [hstage]

theorem handleVideo_submit_error_general (ops : FlowClientOps) (cfg : FlowConfig)
    (now : Int) (token : FlowToken) (mc : ModelConfig) (req : GenerationRequest)
    (hs : Bool) (ucs : List (String × Bool)) (ups : List (List Nat))
    (sID eID : String) (refIDs : List String) (e : String)
    (hval : ¬(mc.videoType = .i2v ∧
      (req.images.length < mc.minImages ∨ mc.maxImages < req.images.length)))
    (hstage : videoUploadStage ops token.at_ mc.aspect mc.videoType
      (if mc.videoType = .t2v ∧ 0 < req.images.length then [] else req.images) hs =
      (ucs, ups, .ok (sID, eID, refIDs)))
    (hsub : (videoSubmitCall ops token mc req.prompt sID eID refIDs
      (if token.userPaygateTier = "" then "PAYGATE_TIER_ONE"
       else token.userPaygateTier)).2 = .error e) :
    (handleVideoGeneration ops cfg now token mc req hs).result =
      { success := false, error := "提交任务失败: " ++ e } ∧
    (handleVideoGeneration ops cfg now token mc req hs).token =
      { token with errorCount := token.errorCount + 1 } := by
  rw [handleVideo_valid_eq ops cfg now token mc req hs hval,
    videoSubmitAndPoll_stage_ok ops cfg now token mc req.prompt _ _ _ _ _ _ _ _ hstage,
    hsub]
  exact videoAfterSubmit_submit_error _ _ _ _ _ _ _ _ _

theorem handleVideo_stage_error_general (ops : FlowClientOps) (cfg : FlowConfig)
    (now : Int) (token : FlowToken) (mc : ModelConfig) (req : GenerationRequest)
    (hs : Bool) (ucs : List (String × Bool)) (ups : List (List Nat)) (msg : String)
    (hval : ¬(mc.videoType = .i2v ∧
      (req.images.length < mc.minImages ∨ mc.maxImages < req.images.length)))
    (hstage : videoUploadStage ops token.at_ mc.aspect mc.videoType
      (if mc.videoType = .t2v ∧ 0 < req.images.length then [] else req.images) hs =
      (ucs, ups, .error msg)) :
    (handleVideoGeneration ops cfg now token mc req hs).result =
      { success := false, error := msg } ∧
    (handleVideoGeneration ops cfg now token mc req hs).token = token := by
  rw [handleVideo_valid_eq ops cfg now token mc req hs hval,
    videoSubmitAndPoll_stage_error ops cfg now token mc req.prompt _ _ _ _ _ _ hstage]
  exact ⟨rfl, rfl⟩

theorem handleVideo_empty_task_general (ops : FlowClientOps) (cfg : FlowConfig)
    (now : Int) (token : FlowToken) (mc : ModelConfig) (req : GenerationRequest)
    (hs : Bool) (ucs : List (String × Bool)) (ups : List (List Nat))
    (sID eID : String) (refIDs : List String) (vresp : GenerateVideoResponse)
    (hval : ¬(mc.videoType = .i2v ∧
      (req.images.length < mc.minImages ∨ mc.maxImages < req.images.length)))
    (hstage : videoUploadStage ops token.at_ mc.aspect mc.videoType
      (if mc.videoType = .t2v ∧ 0 < req.images.length then [] else req.images) hs =
      (ucs, ups, .ok (sID, eID, refIDs)))
    (hsub : (videoSubmitCall ops token mc req.prompt sID eID refIDs
      (if token.userPaygateTier = "" then "PAYGATE_TIER_ONE"
       else token.userPaygateTier)).2 = .ok vresp)
    (htid : vresp.taskID = "") :
    (handleVideoGeneration ops cfg now token mc req hs).result =
      { success := false, error := "任务创建失败" } ∧
    (handleVideoGeneration ops cfg now token mc req hs).token = token := by
  rw [handleVideo_valid_eq ops cfg now token mc req hs hval,
    videoSubmitAndPoll_stage_ok ops cfg now token mc req.prompt _ _ _ _ _ _ _ _ hstage,
    hsub]
  exact videoAfterSubmit_empty_task _ _ _ _ _ _ _ _ _ htid

theorem handleVideo_poll_error_general (ops : FlowClientOps) (cfg : FlowConfig)
    (now : Int) (token : FlowToken) (mc : ModelConfig) (req : GenerationRequest)
    (hs : Bool) (ucs : List (String × Bool)) (ups : List (List Nat))
    (sID eID : String) (refIDs : List String) (vresp : GenerateVideoResponse)
    (e : String)
    (hval : ¬(mc.videoType = .i2v ∧
      (req.images.length < mc.minImages ∨ mc.maxImages < req.images.length)))
    (hstage : videoUploadStage ops token.at_ mc.aspect mc.videoType
      (if mc.videoType = .t2v ∧ 0 < req.images.length then [] else req.images) hs =
      (ucs, ups, .ok (sID, eID, refIDs)))
    (hsub : (videoSubmitCall ops token mc req.prompt sID eID refIDs
      (if token.userPaygateTier = "" then "PAYGATE_TIER_ONE"
       else token.userPaygateTier)).2 = .ok vresp)
    (htid : vresp.taskID ≠ "") (hpoll : (pollVideoResult ops cfg hs).1 = .error e) :
    (handleVideoGeneration ops cfg now token mc req hs).result =
      { success := false, error := e } ∧
    (handleVideoGeneration ops cfg now token mc req hs).token = token := by
  rw [handleVideo_valid_eq ops cfg now token mc req hs hval,
    videoSubmitAndPoll_stage_ok ops cfg now token mc req.prompt _ _ _ _ _ _ _ _ hstage,
    hsub]
  exact videoAfterSubmit_poll_error _ _ _ _ _ _ _ _ _ _ htid hpoll

theorem handleImage_submit_error_general (ops : FlowClientOps) (now : Int)
    (token : FlowToken) (mc : ModelConfig) (req : GenerationRequest) (hs : Bool)
    (ucs : List (String × Bool)) (ups : List (List Nat)) (mediaIDs : List String)
    (e : String)
    (hup : uploadRefImagesLoop ops token.at_ mc.aspect req.images.length hs 0
      req.images = (ucs, ups, .ok mediaIDs))
    (hgen : ops.generateImage token.at_ token.projectID req.prompt mc.modelName
      mc.aspect mediaIDs = .error e) :
    (handleImageGeneration ops now token mc req hs).result =
      { success := false, error := "生成图片失败: " ++ e } ∧
    (handleImageGeneration ops now token mc req hs).token =
      { token with errorCount := token.errorCount + 1 } := by
  unfold handleImageGeneration
  rw [hup]
  dsimp only
  rw [hgen]
  exact ⟨rfl, rfl⟩

theorem handleImage_upload_error_general (ops : FlowClientOps) (now : Int)
    (token : FlowToken) (mc : ModelConfig) (req : GenerationRequest) (hs : Bool)
    (ucs : List (String × Bool)) (ups : List (List Nat)) (e : String)
    (hup : uploadRefImagesLoop ops token.at_ mc.aspect req.images.length hs 0
      req.images = (ucs, ups, .error e)) :
    (handleImageGeneration ops now token mc req hs).result =
      { success := false, error := "上传图片失败: " ++ e } ∧
    (handleImageGeneration ops now token mc req hs).token = token := by
  unfold handleImageGeneration
  rw [hup]
  exact ⟨rfl, rfl⟩

theorem handleImage_empty_result_general (ops : FlowClientOps) (now : Int)
    (token : FlowToken) (mc : ModelConfig) (req : GenerationRequest) (hs : Bool)
    (ucs : List (String × Bool)) (ups : List (List Nat)) (mediaIDs : List String)
    (res : ImageGenResult)
    (hup : uploadRefImagesLoop ops token.at_ mc.aspect req.images.length hs 0
      req.images = (ucs, ups, .ok mediaIDs))
    (hgen : ops.generateImage token.at_ token.projectID req.prompt mc.modelName
      mc.aspect mediaIDs = .ok res)
    (hurl : res.imageURL = "") :
    (handleImageGeneration ops now token mc req hs).result =
      { success := false, error := "生成结果为空" } ∧
    (handleImageGeneration ops now token mc req hs).token = token := by
  unfold handleImageGeneration
  rw [hup]
  dsimp only
  rw [hgen]
  dsimp only
  rw [if_pos hurl]
  exact ⟨rfl, rfl⟩

/-- **C5.** For every video request whose model has the start/end-frame
kind (I2V) and whose image count is strictly below the model's
`MinImages` or strictly above its `MaxImages`, `handleVideoGeneration`
returns the validation-failure result before any upload call is made (the
upload trace is empty and no job is submitted); and for every
text-to-video (T2V) request carrying images, the images are dropped (no
upload happens), the warning chunk is emitted to a streaming caller, and
the request proceeds with the text-only submission shape. -/
theorem handleVideoGeneration_image_count_validation
    (ops : FlowClientOps) (cfg : FlowConfig) (now : Int) (token : FlowToken)
    (mc : ModelConfig) (req : GenerationRequest) (hs : Bool) :
    (mc.videoType = .i2v →
      (req.images.length < mc.minImages ∨ mc.maxImages < req.images.length) →
      handleVideoGeneration ops cfg now token mc req hs =
        { result := { success := false,
                      error := "首尾帧模型需要 " ++ toString mc.minImages ++ "-" ++
                        toString mc.maxImages ++ " 张图片，当前提供了 " ++
                        toString req.images.length ++ " 张" },
          token := token,
          chunks := (if hs then [("✨ 视频生成任务已启动\n", false)] else []),
          uploads := [], submitCall := none }) ∧
    (mc.videoType = .t2v → 0 < req.images.length →
      (handleVideoGeneration ops cfg now token mc req hs).uploads = [] ∧
      (handleVideoGeneration ops cfg now token mc req hs).submitCall =
        some SubmitCall.text ∧
      (hs = true →
        ("⚠️ 文生视频模型不支持图片，将忽略图片仅使用文本提示词\n", false) ∈
          (handleVideoGeneration ops cfg now token mc req hs).chunks)) := by
  constructor
  · exact handleVideo_i2v_invalid ops cfg now token mc req hs
  · intro hv himg
    rw [handleVideo_t2v_eq ops cfg now token mc req hs hv himg]
    have ht := videoAfterSubmit_trace ops cfg now token
      (((if hs then [("✨ 视频生成任务已启动\n", false)] else []) ++
        (if hs then [("⚠️ 文生视频模型不支持图片，将忽略图片仅使用文本提示词\n", false)]
         else [])) ++ [] ++
       (if hs then [("提交视频生成任务...\n", false)] else [])) [] hs .text
      (ops.generateVideoText token.at_ token.projectID req.prompt mc.modelKey mc.aspect
        (if token.userPaygateTier = "" then "PAYGATE_TIER_ONE"
         else token.userPaygateTier))
    refine ⟨ht.1, ht.2.1, ?_⟩
    intro hhs
    obtain ⟨rest, hrest⟩ := ht.2.2
    rw [hrest, hhs]
    simp

/-- **C6 (amended).** In both generation branches, every successful
generation stamps the credential's last-used timestamp with the current
time and resets its error counter to 0.  Of the failure paths, only the
generation-submission transport failures increment the error counter (the
`GenerateImage` call failing in the image branch; the video submit call
failing in the video branch, uniformly over all three submission shapes
via the submit-switch outcome); validation failures, upload failures (at
any image position, in either branch and for every video shape),
empty-result and empty-task failures and polling failures all leave the
credential unchanged, contrary to the original claim that every in-branch
failure increments the counter.  The upload-stage and submit-call
hypotheses quantify over the stage outcomes, so every execution path of
every shape is covered. -/
theorem generation_health_bookkeeping :
    (∀ (ops : FlowClientOps) (now : Int) (token : FlowToken) (mc : ModelConfig)
       (req : GenerationRequest) (hs : Bool),
      (handleImageGeneration ops now token mc req hs).result.success = true →
      (handleImageGeneration ops now token mc req hs).token =
        { token with lastUsed := now, errorCount := 0 }) ∧
    (∀ (ops : FlowClientOps) (cfg : FlowConfig) (now : Int) (token : FlowToken)
       (mc : ModelConfig) (req : GenerationRequest) (hs : Bool),
      (handleVideoGeneration ops cfg now token mc req hs).result.success = true →
      (handleVideoGeneration ops cfg now token mc req hs).token =
        { token with lastUsed := now, errorCount := 0 }) ∧
    (∀ (ops : FlowClientOps) (now : Int) (token : FlowToken) (mc : ModelConfig)
       (req : GenerationRequest) (hs : Bool) (ucs : List (String × Bool))
       (ups : List (List Nat)) (mediaIDs : List String) (e : String),
      uploadRefImagesLoop ops token.at_ mc.aspect req.images.length hs 0
        req.images = (ucs, ups, .ok mediaIDs) →
      ops.generateImage token.at_ token.projectID req.prompt mc.modelName
        mc.aspect mediaIDs = .error e →
      (handleImageGeneration ops now token mc req hs).result =
        { success := false, error := "生成图片失败: " ++ e } ∧
      (handleImageGeneration ops now token mc req hs).token =
        { token with errorCount := token.errorCount + 1 }) ∧
    (∀ (ops : FlowClientOps) (cfg : FlowConfig) (now : Int) (token : FlowToken)
       (mc : ModelConfig) (req : GenerationRequest) (hs : Bool)
       (ucs : List (String × Bool)) (ups : List (List Nat)) (sID eID : String)
       (refIDs : List String) (e : String),
      ¬(mc.videoType = .i2v ∧
        (req.images.length < mc.minImages ∨ mc.maxImages < req.images.length)) →
      videoUploadStage ops token.at_ mc.aspect mc.videoType
        (if mc.videoType = .t2v ∧ 0 < req.images.length then [] else req.images) hs =
        (ucs, ups, .ok (sID, eID, refIDs)) →
      (videoSubmitCall ops token mc req.prompt sID eID refIDs
        (if token.userPaygateTier = "" then "PAYGATE_TIER_ONE"
         else token.userPaygateTier)).2 = .error e →
      (handleVideoGeneration ops cfg now token mc req hs).result =
        { success := false, error := "提交任务失败: " ++ e } ∧
      (handleVideoGeneration ops cfg now token mc req hs).token =
        { token with errorCount := token.errorCount + 1 }) ∧
    (∀ (ops : FlowClientOps) (now : Int) (token : FlowToken) (mc : ModelConfig)
       (req : GenerationRequest) (hs : Bool) (ucs : List (String × Bool))
       (ups : List (List Nat)) (e : String),
      uploadRefImagesLoop ops token.at_ mc.aspect req.images.length hs 0
        req.images = (ucs, ups, .error e) →
      (handleImageGeneration ops now token mc req hs).result =
        { success := false, error := "上传图片失败: " ++ e } ∧
      (handleImageGeneration ops now token mc req hs).token = token) ∧
    (∀ (ops : FlowClientOps) (cfg : FlowConfig) (now : Int) (token : FlowToken)
       (mc : ModelConfig) (req : GenerationRequest) (hs : Bool)
       (ucs : List (String × Bool)) (ups : List (List Nat)) (msg : String),
      ¬(mc.videoType = .i2v ∧
        (req.images.length < mc.minImages ∨ mc.maxImages < req.images.length)) →
      videoUploadStage ops token.at_ mc.aspect mc.videoType
        (if mc.videoType = .t2v ∧ 0 < req.images.length then [] else req.images) hs =
        (ucs, ups, .error msg) →
      (handleVideoGeneration ops cfg now token mc req hs).result =
        { success := false, error := msg } ∧
      (handleVideoGeneration ops cfg now token mc req hs).token = token) ∧
    (∀ (ops : FlowClientOps) (cfg : FlowConfig) (now : Int) (token : FlowToken)
       (mc : ModelConfig) (req : GenerationRequest) (hs : Bool),
      mc.videoType = .i2v →
      (req.images.length < mc.minImages ∨ mc.maxImages < req.images.length) →
      (handleVideoGeneration ops cfg now token mc req hs).token = token) ∧
    (∀ (ops : FlowClientOps) (now : Int) (token : FlowToken) (mc : ModelConfig)
       (req : GenerationRequest) (hs : Bool) (ucs : List (String × Bool))
       (ups : List (List Nat)) (mediaIDs : List String) (res : ImageGenResult),
      uploadRefImagesLoop ops token.at_ mc.aspect req.images.length hs 0
        req.images = (ucs, ups, .ok mediaIDs) →
      ops.generateImage token.at_ token.projectID req.prompt mc.modelName
        mc.aspect mediaIDs = .ok res →
      res.imageURL = "" →
      (handleImageGeneration ops now token mc req hs).result =
        { success := false, error := "生成结果为空" } ∧
      (handleImageGeneration ops now token mc req hs).token = token) ∧
    (∀ (ops : FlowClientOps) (cfg : FlowConfig) (now : Int) (token : FlowToken)
       (mc : ModelConfig) (req : GenerationRequest) (hs : Bool)
       (ucs : List (String × Bool)) (ups : List (List Nat)) (sID eID : String)
       (refIDs : List String) (vresp : GenerateVideoResponse),
      ¬(mc.videoType = .i2v ∧
        (req.images.length < mc.minImages ∨ mc.maxImages < req.images.length)) →
      videoUploadStage ops token.at_ mc.aspect mc.videoType
        (if mc.videoType = .t2v ∧ 0 < req.images.length then [] else req.images) hs =
        (ucs, ups, .ok (sID, eID, refIDs)) →
      (videoSubmitCall ops token mc req.prompt sID eID refIDs
        (if token.userPaygateTier = "" then "PAYGATE_TIER_ONE"
         else token.userPaygateTier)).2 = .ok vresp →
      vresp.taskID = "" →
      (handleVideoGeneration ops cfg now token mc req hs).result =
        { success := false, error := "任务创建失败" } ∧
      (handleVideoGeneration ops cfg now token mc req hs).token = token) ∧
    (∀ (ops : FlowClientOps) (cfg : FlowConfig) (now : Int) (token : FlowToken)
       (mc : ModelConfig) (req : GenerationRequest) (hs : Bool)
       (ucs : List (String × Bool)) (ups : List (List Nat)) (sID eID : String)
       (refIDs : List String) (vresp : GenerateVideoResponse) (e : String),
      ¬(mc.videoType = .i2v ∧
        (req.images.length < mc.minImages ∨ mc.maxImages < req.images.length)) →
      videoUploadStage ops token.at_ mc.aspect mc.videoType
        (if mc.videoType = .t2v ∧ 0 < req.images.length then [] else req.images) hs =
        (ucs, ups, .ok (sID, eID, refIDs)) →
      (videoSubmitCall ops token mc req.prompt sID eID refIDs
        (if token.userPaygateTier = "" then "PAYGATE_TIER_ONE"
         else token.userPaygateTier)).2 = .ok vresp →
      vresp.taskID ≠ "" →
      (pollVideoResult ops cfg hs).1 = .error e →
      (handleVideoGeneration ops cfg now token mc req hs).result =
        { success := false, error := e } ∧
      (handleVideoGeneration ops cfg now token mc req hs).token = token) := by
  refine ⟨handleImage_success_bookkeeping, handleVideo_success_bookkeeping,
    handleImage_submit_error_general, handleVideo_submit_error_general,
    handleImage_upload_error_general, handleVideo_stage_error_general, ?_,
    handleImage_empty_result_general, handleVideo_empty_task_general,
    handleVideo_poll_error_general⟩
  intro ops cfg now token mc req hs hv hcount
  rw [handleVideo_i2v_invalid ops cfg now token mc req hs hv hcount]

def mcVideoI2V : ModelConfig :=
  { type := .video, videoType := .i2v, minImages := 1, maxImages := 2,
    aspect := "VIDEO_ASPECT_RATIO_LANDSCAPE", modelName := "mn", modelKey := "mk" }

def sampleToken : FlowToken :=
  { newFlowToken "sample" "st" with at_ := "AT", projectID := "P" }

def mcImage : ModelConfig := { mcVideoI2V with type := .image }

def mcVideoT2V : ModelConfig := { mcVideoI2V with videoType := .t2v }

def reqNoImages : GenerationRequest :=
  { model := "m", prompt := "p", images := [], stream := true }

def reqOneImage : GenerationRequest := { reqNoImages with images := [[1]] }

def reqTwoImages : GenerationRequest := { reqNoImages with images := [[1], [2]] }

def failUploadOps : FlowClientOps :=
  { pendingOps with uploadImage := fun _ _ _ => .error "up" }

def failImageGenOps : FlowClientOps :=
  { pendingOps with generateImage := fun _ _ _ _ _ _ => .error "gi" }

def emptyImageGenOps : FlowClientOps :=
  { pendingOps with generateImage := fun _ _ _ _ _ _ => .ok ⟨""⟩ }

def failVideoSubmitOps : FlowClientOps :=
  { pendingOps with generateVideoText := fun _ _ _ _ _ _ => .error "sv" }

def emptyTaskOps : FlowClientOps :=
  { pendingOps with generateVideoText := fun _ _ _ _ _ _ => .ok ⟨"", "S"⟩ }

def mcVideoR2V : ModelConfig := { mcVideoI2V with videoType := .r2v }

def failStartEndOps : FlowClientOps :=
  { pendingOps with generateVideoStartEnd := fun _ _ _ _ _ _ _ _ => .error "se" }

def failRefVideoOps : FlowClientOps :=
  { pendingOps with generateVideoReferenceImages := fun _ _ _ _ _ _ _ => .error "sr" }

def secondUploadFailOps : FlowClientOps :=
  { pendingOps with
    uploadImage := fun _ img _ => if img = [1] then .ok "m1" else .error "u2" }

/-- **C7.** When the access-material freshness step fails (the access
material is absent or within the 5-minute expiry margin and the exchange
of the durable secret returns an error), `HandleGeneration` returns the
authentication-failure result with no further steps executed: no quota
refresh is launched, the workspace-ensure step is never reached, no chunk
is emitted, no upload happens, and the credential is returned entirely
unchanged — in particular its error count and disabled flag keep their
prior values. -/
theorem HandleGeneration_auth_failure
    (ops : FlowClientOps) (cfg : FlowConfig)
    (getMC : String → Option ModelConfig) (t : FlowToken) (now : Int)
    (req : GenerationRequest) (hs : Bool) (mc : ModelConfig) (e : String)
    (hmc : getMC req.model = some mc)
    (hstale : ¬(t.at_ ≠ "" ∧ now < t.atExpires - 300))
    (hfail : ops.stToAT t.st = .error e) :
    HandleGeneration ops cfg getMC (some t) now req hs =
      { result := { success := false, error := "Token 认证失败: " ++ e },
        token := some t, chunks := [], uploads := [], submitCall := none,
        creditsLaunched := false, projectAttempted := false } := by
  have hat : ensureATValid ops now t = .error e := by
    rw [ensureATValid, if_neg hstale, hfail]
  simp [HandleGeneration, hmc, hat]

/-- Witness for C7: a concrete request against a credential with no
cached access material and a failing exchange aborts with the
authentication failure, leaving the credential untouched. -/
theorem HandleGeneration_auth_failure_witness :
    HandleGeneration pendingOps pollCfg (fun _ => some mcVideoI2V)
        (some (newFlowToken "c7" "s")) 0
        { model := "m", prompt := "p", images := [], stream := true } true =
      { result := { success := false, error := "Token 认证失败: sample" },
        token := some (newFlowToken "c7" "s"), chunks := [], uploads := [],
        submitCall := none, creditsLaunched := false, projectAttempted := false } :=
  HandleGeneration_auth_failure pendingOps pollCfg (fun _ => some mcVideoI2V)
    (newFlowToken "c7" "s") 0 { model := "m", prompt := "p", images := [], stream := true }
    true mcVideoI2V "sample" rfl (by simp [newFlowToken]) rfl

/-- Witness for C5: a concrete start/end-frame request with zero images
fails validation with no upload, and a concrete text-to-video request
with two images uploads nothing, submits the text shape and emits the
warning chunk. -/
theorem handleVideoGeneration_image_count_validation_witness :
    (handleVideoGeneration pendingOps pollCfg 7 sampleToken mcVideoI2V
      reqNoImages true).result.success = false ∧
    (handleVideoGeneration pendingOps pollCfg 7 sampleToken mcVideoI2V
      reqNoImages true).uploads = [] ∧
    (handleVideoGeneration pendingOps pollCfg 7 sampleToken mcVideoT2V
      reqTwoImages true).uploads = [] ∧
    (handleVideoGeneration pendingOps pollCfg 7 sampleToken mcVideoT2V
      reqTwoImages true).submitCall = some SubmitCall.text ∧
    ("⚠️ 文生视频模型不支持图片，将忽略图片仅使用文本提示词\n", false) ∈
      (handleVideoGeneration pendingOps pollCfg 7 sampleToken mcVideoT2V
        reqTwoImages true).chunks := by
  have h := handleVideoGeneration_image_count_validation pendingOps pollCfg 7
    sampleToken mcVideoI2V reqNoImages true
  have h2 := handleVideoGeneration_image_count_validation pendingOps pollCfg 7
    sampleToken mcVideoT2V reqTwoImages true
  have ha := h.1 rfl (Or.inl (by decide))
  have hb := h2.2 rfl (by decide)
  exact ⟨by rw [ha], by rw [ha], hb.1, hb.2.1, hb.2.2 rfl⟩

/-- Counterexample to C6 as stated: a concrete first-frame upload failure
is a failure inside the video branch, yet the credential's error counter
stays 0 (the claim demands an increment). -/
theorem upload_failure_leaves_error_count :
    sampleToken.errorCount = 0 ∧
    (handleVideoGeneration failUploadOps pollCfg 7 sampleToken mcVideoI2V
      reqOneImage true).result.success = false ∧
    (handleVideoGeneration failUploadOps pollCfg 7 sampleToken mcVideoI2V
      reqOneImage true).result.error = "上传首帧失败: up" ∧
    (handleVideoGeneration failUploadOps pollCfg 7 sampleToken mcVideoI2V
      reqOneImage true).token.errorCount = 0 :=
  ⟨rfl, rfl, rfl, rfl⟩

/-- Witness for the amended C6: concrete runs of every branch — both
successes update the bookkeeping; submission failures for the image call
and for all three video shapes (text, start/end and reference) increment
the counter; and validation, upload (first image, reference images and
the second start/end frame), empty-result, empty-task and polling
failures leave the credential unchanged. -/
theorem generation_health_bookkeeping_witness :
    (handleImageGeneration pendingOps 7 sampleToken mcImage reqNoImages true).token =
      { sampleToken with lastUsed := 7, errorCount := 0 } ∧
    (handleVideoGeneration succeedAt2Ops pollCfg 7 sampleToken mcVideoT2V
      reqNoImages true).token = { sampleToken with lastUsed := 7, errorCount := 0 } ∧
    (handleImageGeneration failImageGenOps 7 sampleToken mcImage reqOneImage true).token =
      { sampleToken with errorCount := sampleToken.errorCount + 1 } ∧
    (handleVideoGeneration failStartEndOps pollCfg 7 sampleToken mcVideoI2V
      reqOneImage true).token =
      { sampleToken with errorCount := sampleToken.errorCount + 1 } ∧
    (handleVideoGeneration failRefVideoOps pollCfg 7 sampleToken mcVideoR2V
      reqOneImage true).token =
      { sampleToken with errorCount := sampleToken.errorCount + 1 } ∧
    (handleImageGeneration failUploadOps 7 sampleToken mcImage reqOneImage true).token =
      sampleToken ∧
    (handleVideoGeneration failUploadOps pollCfg 7 sampleToken mcVideoR2V
      reqTwoImages true).token = sampleToken ∧
    (handleVideoGeneration secondUploadFailOps pollCfg 7 sampleToken mcVideoI2V
      reqTwoImages true).token = sampleToken ∧
    (handleVideoGeneration pendingOps pollCfg 7 sampleToken mcVideoI2V
      reqNoImages true).token = sampleToken ∧
    (handleImageGeneration emptyImageGenOps 7 sampleToken mcImage reqNoImages true).token =
      sampleToken ∧
    (handleVideoGeneration emptyTaskOps pollCfg 7 sampleToken mcVideoT2V
      reqNoImages true).token = sampleToken ∧
    (handleVideoGeneration pendingOps pollCfg 7 sampleToken mcVideoT2V
      reqNoImages true).token = sampleToken := by
  obtain ⟨h1, h2, h3, h4, h5, h6, h7, h8, h9, h10⟩ := generation_health_bookkeeping
  refine ⟨h1 pendingOps 7 sampleToken mcImage reqNoImages true rfl,
    h2 succeedAt2Ops pollCfg 7 sampleToken mcVideoT2V reqNoImages true rfl,
    (h3 failImageGenOps 7 sampleToken mcImage reqOneImage true
      [("已上传第 1/1 张图片\n", false)] [[1]] ["M"] "gi" rfl rfl).2,
    (h4 failStartEndOps pollCfg 7 sampleToken mcVideoI2V reqOneImage true
      [("上传首帧图片...\n", false)] [[1]] "M" "" [] "se" (by decide) rfl rfl).2,
    (h4 failRefVideoOps pollCfg 7 sampleToken mcVideoR2V reqOneImage true
      [("上传 1 张参考图片...\n", false)] [[1]] "" "" ["M"] "sr" (by decide) rfl rfl).2,
    (h5 failUploadOps 7 sampleToken mcImage reqOneImage true [] [[1]] "up" rfl).2,
    (h6 failUploadOps pollCfg 7 sampleToken mcVideoR2V reqTwoImages true
      [("上传 2 张参考图片...\n", false)] [[1]] "上传图片失败: up" (by decide) rfl).2,
    (h6 secondUploadFailOps pollCfg 7 sampleToken mcVideoI2V reqTwoImages true
      [("上传首帧图片...\n", false), ("上传尾帧图片...\n", false)] [[1], [2]]
      "上传尾帧失败: u2" (by decide) rfl).2,
    h7 pendingOps pollCfg 7 sampleToken mcVideoI2V reqNoImages true rfl
      (Or.inl (by decide)),
    (h8 emptyImageGenOps 7 sampleToken mcImage reqNoImages true [] [] [] ⟨""⟩
      rfl rfl rfl).2,
    (h9 emptyTaskOps pollCfg 7 sampleToken mcVideoT2V reqNoImages true [] [] "" "" []
      ⟨"", "S"⟩ (by decide) rfl rfl rfl).2,
    (h10 pendingOps pollCfg 7 sampleToken mcVideoT2V reqNoImages true [] [] "" "" []
      ⟨"T", "S"⟩ ("视频生成超时 (已轮询 " ++ toString (10 : Nat) ++ " 次)")
      (by decide) rfl rfl (by decide) rfl).2⟩

end flow
